import Mathlib

/-!
Verification development for the citation extraction / validation pipeline.

The JavaScript sources are embedded shallowly:
* JS strings are Lean `String`s; a missing string field and the empty string
  are conflated, because every use in the sources tests plain truthiness,
  and for a JS string truthiness is exactly non-emptiness.
* JS numbers that take part in exact comparisons and averages are modelled
  by `ℚ` (all values arising here are small exact ratios).
* Asynchronous external calls (LLM extraction, bibliographic lookups) are
  modelled by oracle values supplied as explicit arguments, covering both
  the success and the failure outcome of each call.
* Exact divisions of integer quantities are written `mkRat n d`, which equals
  `n / d` whenever `d ≠ 0` (`Rat.mkRat_eq_div`); every use below is guarded so
  that the denominator is positive, matching the JS division exactly.
-/

/-- One author record, the `\x7bfamily, given\x7d` shape used throughout the app. -/
structure Author where
  family : String := ""
  given : String := ""
deriving DecidableEq

/-- ASCII lower-casing; models `String.prototype.toLowerCase` on the
app inputs (the sources only ever lower-case ASCII identifiers/titles). -/
def jsToLower (s : String) : String :=
  String.mk (s.data.map Char.toLower)

/-- Leading and trailing whitespace removal; models `String.prototype.trim`. -/
def jsTrim (s : String) : String :=
  String.mk (((s.data.dropWhile Char.isWhitespace).reverse.dropWhile Char.isWhitespace).reverse)

/-- Executable infix test on character lists: does `needle` occur contiguously
inside the second list? -/
def isInfixList (needle : List Char) : List Char → Bool
  | [] => needle.isEmpty
  | c :: rest => needle.isPrefixOf (c :: rest) || isInfixList needle rest

/-- Substring containment: `a.includes(b)` in JS. -/
def jsIncludes (a b : String) : Bool :=
  isInfixList b.data a.data

/-- State machine for `s.split(/\s+/)`: `some acc` means a token `acc`
(reversed) is being accumulated, `none` means we are inside a whitespace
run whose preceding token has already been emitted.  Splitting on a regex
in JS yields a leading empty token when the string starts with whitespace
and a trailing empty token when it ends with whitespace; this reproduces
that behaviour exactly. -/
def jsSplitWsAux : List Char → Option (List Char) → List String
  | [], some acc => [String.mk acc.reverse]
  | [], none => [""]
  | c :: rest, some acc =>
    if c.isWhitespace then String.mk acc.reverse :: jsSplitWsAux rest none
    else jsSplitWsAux rest (some (c :: acc))
  | c :: rest, none =>
    if c.isWhitespace then jsSplitWsAux rest none
    else jsSplitWsAux rest (some [c])

/-- Model of `s.split(/\s+/)` from `stringSimilarity` (src/js/utils/similarity.js). -/
def jsSplitWs (s : String) : List String :=
  jsSplitWsAux s.data (some [])

/-- `stringSimilarity` from src/js/utils/similarity.js: Jaccard-like token
overlap of the lower-cased whitespace-token sets of the two strings. -/
def stringSimilarity (str1 str2 : String) : ℚ :=
  if str1 = "" ∨ str2 = "" then 0
  else
    let words1 := (jsSplitWs (jsToLower str1)).dedup
    let words2 := (jsSplitWs (jsToLower str2)).dedup
    let intersectionSize := (words1.filter (fun w => words2.contains w)).length
    let unionSize := words1.length + words2.length - intersectionSize
    if unionSize > 0 then mkRat intersectionSize unionSize else 0

/-- `longer.indexOf(char, longerIdx)` on a character list: first index `≥ start`
holding `c`, if any. -/
def indexOfFrom (l : List Char) (c : Char) (start : Nat) : Option Nat :=
  match (l.drop start).findIdx? (fun x => x = c) with
  | some i => some (start + i)
  | none => none

/-- The in-order character matching loop of `calculateSimilarity`
(src/js/state/extraction-state.js): for each character of the shorter
string, search the longer string from the current index; on a hit advance
the index past the hit and count one match. -/
def matchCountAux : List Char → List Char → Nat → Nat
  | [], _, _ => 0
  | c :: rest, longer, longerIdx =>
    match indexOfFrom longer c longerIdx with
    | some foundIdx => 1 + matchCountAux rest longer (foundIdx + 1)
    | none => matchCountAux rest longer longerIdx

/-- `calculateSimilarity` from src/js/state/extraction-state.js: character
containment ratio when one string contains the other, otherwise a simple
LCS-like in-order character match ratio.  This is NOT the token-overlap
`stringSimilarity` above. -/
def calculateSimilarity (str1 str2 : String) : ℚ :=
  if str1 = "" ∨ str2 = "" then 0
  else if str1 = str2 then 1
  else
    let longer := if str1.length > str2.length then str1 else str2
    let shorter := if str1.length > str2.length then str2 else str1
    if longer.length = 0 then 1
    else if jsIncludes longer shorter then mkRat shorter.length longer.length
    else mkRat (2 * matchCountAux shorter.data longer.data 0) (str1.length + str2.length)

/-- `isbn.replace(/[-\s]/g, "")`: drop hyphens and whitespace. -/
def stripIsbn (s : String) : String :=
  String.mk (s.data.filter (fun c => !(c = '-' || c.isWhitespace)))

/-- The six FIELD_WEIGHTS entries (title 10, authors 8, year 6, journal 0.5,
volume 0.2, pages 0.2, doi 1) from the validation service. -/
structure FieldWeights where
  title : ℚ
  authors : ℚ
  year : ℚ
  journal : ℚ
  volume : ℚ
  pages : ℚ
  doi : ℚ
deriving DecidableEq

/-- `FIELD_WEIGHTS` constant of the validation service. -/
def FIELD_WEIGHTS : FieldWeights :=
  { title := 10, authors := 8, year := 6, journal := mkRat 1 2
    volume := mkRat 1 5, pages := mkRat 1 5, doi := 1 }

/-- `THRESHOLDS` constant of the validation service. -/
structure Thresholds where
  valid : ℚ
  suspicious : ℚ
deriving DecidableEq

/-- The verdict thresholds: valid at 0.90, suspicious at 0.70. -/
def THRESHOLDS : Thresholds :=
  { valid := mkRat 9 10, suspicious := mkRat 7 10 }

/-- Per-field score bag built by `computeMatchScore`; `none` means the field
was not compared (absent on at least one side). -/
structure FieldScores where
  title : Option ℚ := none
  authors : Option ℚ := none
  year : Option ℚ := none
  journal : Option ℚ := none
  volume : Option ℚ := none
  pages : Option ℚ := none
deriving DecidableEq

/-- `MatchScore` result shape of `computeMatchScore`. -/
structure MatchScore where
  overall : ℚ
  fields : FieldScores
  fieldsCompared : Nat
deriving DecidableEq

/-- The common normalized record shape produced by `normalizeCrossRef`,
`normalizeOpenAlex` and `normalizeExtracted`.  `year` is `none` for a missing
or unparsable (NaN) year. -/
structure NormRecord where
  title : String := ""
  authors : List Author := []
  year : Option Int := none
  journal : String := ""
  volume : String := ""
  pages : String := ""
  doi : String := ""
deriving DecidableEq

/-- The `citation.validation` bag: raw matched external records (abstracted by
their normalized shape) and the computed match score. -/
structure ValidationBag where
  crossref : Option NormRecord := none
  openalex : Option NormRecord := none
  matchScore : Option MatchScore := none
deriving DecidableEq

/-- An extraction / citation record.  String fields use `""` for absent
(truthiness in JS).  `complete` is `none` when the extractor did not emit the
flag (treated as complete by every `!== false` test), and `position` / `reason`
are present only on incomplete extractions.  `pmid` and `year` are kept as the
strings the comparisons coerce them to with `String(...)`. -/
structure Extraction where
  error : Bool := false
  errorMessage : String := ""
  complete : Option Bool := none
  position : Option String := none
  reason : Option String := none
  doi : String := ""
  pmid : String := ""
  isbn : String := ""
  title : String := ""
  year : String := ""
  authors : List Author := []
  authors_truncated : Bool := false
  container_title : String := ""
  journal : String := ""
  volume : String := ""
  issue : String := ""
  pages : String := ""
  page : String := ""
  raw_text : String := ""
  query_bibliographic : String := ""
  id : String := ""
  index : Nat := 0
  colorIndex : Nat := 0
  windowIndex : Nat := 0
  validationStatus : String := ""
  validation : Option ValidationBag := none
deriving DecidableEq

instance : Inhabited Extraction := ⟨{}⟩

/-- `WINDOW_COLORS` from the constants module: six presentation colors; only
its length matters to the logic (`colorIndex = index % 6`). -/
def WINDOW_COLORS : List String :=
  ["#3b82f6", "#10b981", "#f59e0b", "#8b5cf6", "#ec4899", "#14b8a6"]

/-- Matching unique-DOI test of the strict duplicate rule: both sides carry a
DOI and they agree case-insensitively. -/
def doiMatch (ext1 ext2 : Extraction) : Bool :=
  ext1.doi ≠ "" && ext2.doi ≠ "" && jsToLower ext1.doi = jsToLower ext2.doi

/-- Matching PMID test: both sides carry a PMID and the `String(...)` coercions
agree. -/
def pmidMatch (ext1 ext2 : Extraction) : Bool :=
  ext1.pmid ≠ "" && ext2.pmid ≠ "" && ext1.pmid = ext2.pmid

/-- Matching ISBN test: both sides carry an ISBN and they agree after dropping
hyphens and whitespace. -/
def isbnMatch (ext1 ext2 : Extraction) : Bool :=
  ext1.isbn ≠ "" && ext2.isbn ≠ "" && stripIsbn ext1.isbn = stripIsbn ext2.isbn

/-- First-author family-name check of the strict duplicate rule: both author
lists non-empty and the lower-cased trimmed family names are non-empty and
equal. -/
def firstAuthorStrictMatch (ext1 ext2 : Extraction) : Bool :=
  match ext1.authors, ext2.authors with
  | a1 :: _, a2 :: _ =>
    let author1 := jsTrim (jsToLower a1.family)
    let author2 := jsTrim (jsToLower a2.family)
    author1 ≠ "" && author2 ≠ "" && author1 = author2
  | _, _ => false

/-- `extractionsAreDuplicates` (STRICT matching) from
src/js/state/extraction-state.js: a unique-identifier match, or else title
similarity ≥ 0.8 under `calculateSimilarity` plus matching first author plus
compatible years. -/
def extractionsAreDuplicates (ext1 ext2 : Extraction) : Bool :=
  if doiMatch ext1 ext2 then true
  else if pmidMatch ext1 ext2 then true
  else if isbnMatch ext1 ext2 then true
  else if ext1.title = "" ∨ ext2.title = "" then false
  else
    let title1 := jsTrim (jsToLower ext1.title)
    let title2 := jsTrim (jsToLower ext2.title)
    if calculateSimilarity title1 title2 < mkRat 8 10 then false
    else if !firstAuthorStrictMatch ext1 ext2 then false
    else if ext1.year ≠ "" && ext2.year ≠ "" && ext1.year ≠ ext2.year then false
    else true

/-- `scoreExtraction`: additive quality score used to pick the survivor of a
duplicate pair. -/
def scoreExtraction (ext : Extraction) : ℚ :=
  (if ext.validationStatus = "valid" then 100
   else if ext.validationStatus = "suspicious" then 50
   else if ext.validationStatus = "incomplete" then 10
   else if ext.validationStatus = "invalid" then 5 else 0)
  + (if ext.complete ≠ some false then 50 else 0)
  + (if ext.doi ≠ "" then 30 else 0)
  + (if ext.pmid ≠ "" then 20 else 0)
  + (if ext.isbn ≠ "" then 20 else 0)
  + (if ext.title ≠ "" then 10 else 0)
  + (if ext.year ≠ "" then 5 else 0)
  + (if ext.container_title ≠ "" then 5 else 0)
  + (if ext.volume ≠ "" then 3 else 0)
  + (if ext.issue ≠ "" then 3 else 0)
  + (if ext.pages ≠ "" then 3 else 0)
  + (if ext.authors.length ≠ 0 then (min (ext.authors.length * 2) 10 : ℚ) else 0)
  + (ext.windowIndex : ℚ) * mkRat 1 10

/-- Inner loop of `deduplicateExtractions` for a fixed `ext1`, walking the
later extractions; marks the loser of each duplicate pair, returning early
(the JS `break`) when `ext1` itself loses. -/
def dedupInner (ext1 : Extraction) : List Extraction → List String → List String
  | [], idsToRemove => idsToRemove
  | ext2 :: rest, idsToRemove =>
    if ext2.error = true ∨ idsToRemove.contains ext2.id then dedupInner ext1 rest idsToRemove
    else if extractionsAreDuplicates ext1 ext2 then
      if scoreExtraction ext1 ≥ scoreExtraction ext2 then
        dedupInner ext1 rest (idsToRemove ++ [ext2.id])
      else idsToRemove ++ [ext1.id]
    else dedupInner ext1 rest idsToRemove

/-- Outer loop of `deduplicateExtractions`: all ordered pairs `i < j`. -/
def dedupOuterLoop : List Extraction → List String → List String
  | [], idsToRemove => idsToRemove
  | ext1 :: rest, idsToRemove =>
    if ext1.error = true ∨ idsToRemove.contains ext1.id then dedupOuterLoop rest idsToRemove
    else dedupOuterLoop rest (dedupInner ext1 rest idsToRemove)

/-- `deduplicateExtractions` from src/js/state/extraction-state.js, modelled on
the extraction list it filters (the source mutates `state.extractions` and
`state.processingResults` with the same filter and returns the removed count). -/
def deduplicateExtractions (extractions : List Extraction) : List Extraction :=
  if extractions.length < 2 then extractions
  else
    let idsToRemove := dedupOuterLoop extractions []
    extractions.filter (fun e => !(idsToRemove.contains e.id))

/-- A text window: half-open character range `[start, stop)` of the source
text.  The source calls `stop` the `end` field (a Lean keyword) and also
stores `length = stop - start` and the sliced text, which is determined by
the range. -/
structure Window where
  index : Nat
  start : Nat
  stop : Nat
  length : Nat
deriving DecidableEq

/-- Normalization of `windowSize` in `createWindows`: values ≤ 0 fall back to
the 2000-character default. -/
def normWindowSize (windowSize : Int) : Nat :=
  if windowSize ≤ 0 then 2000 else windowSize.toNat

/-- Normalization of `overlap` in `createWindows`: negative values become 0,
values ≥ the (already normalized) window size are clamped to windowSize - 1. -/
def normOverlap (overlap : Int) (ws : Nat) : Nat :=
  let ov := if overlap < 0 then 0 else overlap.toNat
  if ov ≥ ws then ws - 1 else ov

/-- The `while (start < text.length)` loop of `createWindows`
(src/js/api/crossref.js module Windowing).  Each iteration pushes the window
`[start, min(start+ws, len))`, advances by `step`, and when the remaining tail
is shorter than `step` replaces the would-be tiny final window by one ending at
`len` and starting at `len - ws` (clamped at 0), provided that start lies
strictly after the previous window start.  The `fuel` argument makes the
recursion structural; since `step ≥ 1` after normalization, `len + 1` fuel is
never exhausted (established by the lemmas below). -/
def createWindowsLoop : Nat → Nat → Nat → Nat → Nat → Nat → List Window
  | 0, _, _, _, _, _ => []
  | fuel + 1, len, ws, step, start, windowIndex =>
    if start < len then
      let e := min (start + ws) len
      let w : Window := ⟨windowIndex, start, e, e - start⟩
      if start + step < len ∧ len - (start + step) < step then
        let finalStart := len - ws
        if start < finalStart then
          [w, ⟨windowIndex + 1, finalStart, len, len - finalStart⟩]
        else [w]
      else
        w :: createWindowsLoop fuel len ws step (start + step) (windowIndex + 1)
    else []

/-- `createWindows(text, windowSize, overlap)`: empty or whitespace-only text
yields no windows (the `!text || !text.trim()` guard); otherwise the loop above
runs with the normalized parameters. -/
def createWindows (text : List Char) (windowSize overlap : Int) : List Window :=
  if text.all (fun c => c.isWhitespace) then []
  else
    let ws := normWindowSize windowSize
    let ov := normOverlap overlap ws
    createWindowsLoop (text.length + 1) text.length ws (ws - ov) 0 0

/-- `processExtraction`: stamp a raw extraction with its run identity. -/
def processExtraction (rawExtraction : Extraction) (index windowIndex : Nat) : Extraction :=
  { rawExtraction with
    id := "extraction-" ++ toString index
    index := index
    colorIndex := index % WINDOW_COLORS.length
    windowIndex := windowIndex }

/-- `createErrorExtraction`: the synthetic error-marked record emitted for a
failed window. -/
def createErrorExtraction (index windowIndex : Nat) (errorMessage : String) : Extraction :=
  { id := "extraction-" ++ toString index
    index := index
    colorIndex := index % WINDOW_COLORS.length
    windowIndex := windowIndex
    error := true
    errorMessage := errorMessage
    validationStatus := "invalid" }

/-- Loose title overlap used by `extractionsMatchByFields`: both lower-cased
trimmed titles at least 10 characters of common comparison length, and either
one contains the other or their first min(15, minLen) characters agree. -/
def titleLooseMatch (title1 title2 : String) : Bool :=
  let minLen := min title1.length title2.length
  if minLen ≥ 10 then
    if jsIncludes title1 title2 || jsIncludes title2 title1 then true
    else
      let checkLen := min 15 minLen
      title1.data.take checkLen = title2.data.take checkLen
  else false

/-- First-author family-name criterion of the LOOSE field-match rule (no
else-branch rejection, unlike the strict rule). -/
def firstAuthorLooseMatch (ext1 ext2 : Extraction) : Bool :=
  match ext1.authors, ext2.authors with
  | a1 :: _, a2 :: _ =>
    let author1 := jsTrim (jsToLower a1.family)
    let author2 := jsTrim (jsToLower a2.family)
    author1 ≠ "" && author2 ≠ "" && author1 = author2
  | _, _ => false

/-- `extractionsMatchByFields` (LOOSE matching): any one criterion suffices. -/
def extractionsMatchByFields (ext1 ext2 : Extraction) : Bool :=
  if doiMatch ext1 ext2 then true
  else if pmidMatch ext1 ext2 then true
  else if isbnMatch ext1 ext2 then true
  else if firstAuthorLooseMatch ext1 ext2 then true
  else if ext1.title ≠ "" && ext2.title ≠ ""
          && titleLooseMatch (jsTrim (jsToLower ext1.title)) (jsTrim (jsToLower ext2.title)) then true
  else if ext1.year ≠ "" && ext2.year ≠ "" && ext1.container_title ≠ "" && ext2.container_title ≠ ""
          && ext1.year = ext2.year
          && jsToLower ext1.container_title = jsToLower ext2.container_title then true
  else false

/-- `extractionsOverlap`: may two incomplete extractions be merged?  Both must
be incomplete, their positions must complement, and the loose field match must
hold. -/
def extractionsOverlap (ext1 ext2 : Extraction) : Bool :=
  if ext1.error = true ∨ ext2.error = true then false
  else if ext1.complete ≠ some false ∨ ext2.complete ≠ some false then false
  else if !((ext1.position = some "end" && ext2.position = some "start")
            || (ext1.position = some "start" && ext2.position = some "end")) then false
  else extractionsMatchByFields ext1 ext2

/-- `completeSupersedes`: does a complete extraction supersede a pending
incomplete `position=end` extraction? -/
def completeSupersedes (incompleteEnd completeExtraction : Extraction) : Bool :=
  if incompleteEnd.error = true ∨ completeExtraction.error = true then false
  else if incompleteEnd.complete ≠ some false ∨ incompleteEnd.position ≠ some "end" then false
  else if completeExtraction.complete = some false then false
  else extractionsMatchByFields incompleteEnd completeExtraction

/-- Step of `mergeExtractions`: mark the merged record complete and clear its
`reason` / `position` markers. -/
def mergeMarkComplete (endExtraction : Extraction) : Extraction :=
  { endExtraction with complete := some true, reason := none, position := none }

/-- Step of `mergeExtractions`: concatenate `raw_text` (end text, newline,
start text) when both present, otherwise take whichever is present. -/
def mergeRawText (endExtraction startExtraction : Extraction) : Extraction :=
  if endExtraction.raw_text ≠ "" ∧ startExtraction.raw_text ≠ "" then
    { endExtraction with raw_text := endExtraction.raw_text ++ "\n" ++ startExtraction.raw_text }
  else if endExtraction.raw_text = "" ∧ startExtraction.raw_text ≠ "" then
    { endExtraction with raw_text := startExtraction.raw_text }
  else endExtraction

/-- Step of `mergeExtractions`: for `title`, prefer the longer when both are
present, otherwise fill a missing end-side title from the start side. -/
def mergeTitle (endExtraction startExtraction : Extraction) : Extraction :=
  if endExtraction.title ≠ "" ∧ startExtraction.title ≠ "" then
    if startExtraction.title.length > endExtraction.title.length then
      { endExtraction with title := startExtraction.title }
    else endExtraction
  else if endExtraction.title = "" ∧ startExtraction.title ≠ "" then
    { endExtraction with title := startExtraction.title }
  else endExtraction

/-- Step of `mergeExtractions`: the `container_title` entry of the
prefer-longer text-field loop. -/
def mergeContainerTitle (endExtraction startExtraction : Extraction) : Extraction :=
  if endExtraction.container_title = "" ∧ startExtraction.container_title ≠ "" then
    { endExtraction with container_title := startExtraction.container_title }
  else if endExtraction.container_title ≠ "" ∧ startExtraction.container_title ≠ ""
          ∧ startExtraction.container_title.length > endExtraction.container_title.length then
    { endExtraction with container_title := startExtraction.container_title }
  else endExtraction

/-- Step of `mergeExtractions`: the `query_bibliographic` entry of the
prefer-longer text-field loop. -/
def mergeQueryBibliographic (endExtraction startExtraction : Extraction) : Extraction :=
  if endExtraction.query_bibliographic = "" ∧ startExtraction.query_bibliographic ≠ "" then
    { endExtraction with query_bibliographic := startExtraction.query_bibliographic }
  else if endExtraction.query_bibliographic ≠ "" ∧ startExtraction.query_bibliographic ≠ ""
          ∧ startExtraction.query_bibliographic.length > endExtraction.query_bibliographic.length then
    { endExtraction with query_bibliographic := startExtraction.query_bibliographic }
  else endExtraction

/-- Steps of `mergeExtractions`: the fill-missing loop over the simple fields
`doi, pmid, isbn, year, volume, issue, pages`, one helper per field. -/
def mergeDoi (endExtraction startExtraction : Extraction) : Extraction :=
  if endExtraction.doi = "" ∧ startExtraction.doi ≠ "" then
    { endExtraction with doi := startExtraction.doi } else endExtraction

/-- Fill-missing step for `pmid`. -/
def mergePmid (endExtraction startExtraction : Extraction) : Extraction :=
  if endExtraction.pmid = "" ∧ startExtraction.pmid ≠ "" then
    { endExtraction with pmid := startExtraction.pmid } else endExtraction

/-- Fill-missing step for `isbn`. -/
def mergeIsbn (endExtraction startExtraction : Extraction) : Extraction :=
  if endExtraction.isbn = "" ∧ startExtraction.isbn ≠ "" then
    { endExtraction with isbn := startExtraction.isbn } else endExtraction

/-- Fill-missing step for `year`. -/
def mergeYear (endExtraction startExtraction : Extraction) : Extraction :=
  if endExtraction.year = "" ∧ startExtraction.year ≠ "" then
    { endExtraction with year := startExtraction.year } else endExtraction

/-- Fill-missing step for `volume`. -/
def mergeVolume (endExtraction startExtraction : Extraction) : Extraction :=
  if endExtraction.volume = "" ∧ startExtraction.volume ≠ "" then
    { endExtraction with volume := startExtraction.volume } else endExtraction

/-- Fill-missing step for `issue`. -/
def mergeIssue (endExtraction startExtraction : Extraction) : Extraction :=
  if endExtraction.issue = "" ∧ startExtraction.issue ≠ "" then
    { endExtraction with issue := startExtraction.issue } else endExtraction

/-- Fill-missing step for `pages`. -/
def mergePages (endExtraction startExtraction : Extraction) : Extraction :=
  if endExtraction.pages = "" ∧ startExtraction.pages ≠ "" then
    { endExtraction with pages := startExtraction.pages } else endExtraction

/-- Step of `mergeExtractions`: keep the longer author list and propagate the
`authors_truncated` flag. -/
def mergeAuthors (endExtraction startExtraction : Extraction) : Extraction :=
  let merged :=
    if startExtraction.authors.length > endExtraction.authors.length then
      { endExtraction with authors := startExtraction.authors } else endExtraction
  if merged.authors_truncated = true ∨ startExtraction.authors_truncated = true then
    { merged with authors_truncated := true } else merged

/-- `mergeExtractions` from the extraction service: master/slave merge of an
`end`-truncated and a `start`-truncated extraction.  The `position=end` side is
primary; the source mutates it in place, the model returns the merged record.
The steps run in the source order. -/
def mergeExtractions (master slave : Extraction) : Extraction :=
  let pair := if master.position = some "end" then (master, slave) else (slave, master)
  let startExtraction := pair.2
  mergeAuthors
    (mergePages
      (mergeIssue
        (mergeVolume
          (mergeYear
            (mergeIsbn
              (mergePmid
                (mergeDoi
                  (mergeQueryBibliographic
                    (mergeContainerTitle
                      (mergeTitle
                        (mergeRawText (mergeMarkComplete pair.1) startExtraction)
                        startExtraction)
                      startExtraction)
                    startExtraction)
                  startExtraction)
                startExtraction)
              startExtraction)
            startExtraction)
          startExtraction)
        startExtraction)
      startExtraction)
    startExtraction

/-- State of a `RateLimiter` instance: the configured ceilings (`none` models
the JS `Infinity` default), the in-flight count, the rolling acceptance
timestamps (wall-clock milliseconds, appended in order), and the FIFO wait
queue of task identifiers. -/
structure RLState where
  maxConcurrent : Option Nat := none
  requestsPerMinute : Option Nat := none
  activeRequests : Nat := 0
  requestTimestamps : List Int := []
  queue : List Nat := []
deriving DecidableEq

/-- `_cleanTimestamps`: drop timestamps at least one minute old. -/
def cleanTimestamps (timestamps : List Int) (now : Int) : List Int :=
  timestamps.filter (fun ts => ts > now - 60000)

/-- Apply `_cleanTimestamps` to the state (the source mutates
`this.requestTimestamps`). -/
def cleanState (s : RLState) (now : Int) : RLState :=
  { s with requestTimestamps := cleanTimestamps s.requestTimestamps now }

/-- `_canProceed`: in-flight count below `maxConcurrent` AND rolling one-minute
request count below `requestsPerMinute`. -/
def canProceed (s : RLState) (now : Int) : Bool :=
  let ts := cleanTimestamps s.requestTimestamps now
  let concurrencyOk :=
    match s.maxConcurrent with
    | none => true
    | some m => s.activeRequests < m
  let rateOk :=
    match s.requestsPerMinute with
    | none => true
    | some r => ts.length < r
  concurrencyOk && rateOk

/-- The synchronous prefix of `_executeTask`: increment the in-flight count and
record the acceptance timestamp.  Task completion is a separate event
(`completeTask`). -/
def executeStart (s : RLState) (now : Int) : RLState :=
  { s with activeRequests := s.activeRequests + 1
           requestTimestamps := s.requestTimestamps ++ [now] }

/-- The `while` loop of `_processQueue`, walking the queue explicitly: shift
and start tasks from the front while `_canProceed` holds.  Returns the new
state and the identifiers of the tasks started, in start order. -/
def processQueueAux (now : Int) : List Nat → RLState → RLState × List Nat
  | [], s => ({ s with queue := [] }, [])
  | t :: rest, s =>
    let s := cleanState s now
    if canProceed s now then
      let result := processQueueAux now rest (executeStart s now)
      (result.1, t :: result.2)
    else ({ s with queue := t :: rest }, [])

/-- `_processQueue` at wall-clock time `now`. -/
def processQueue (s : RLState) (now : Int) : RLState × List Nat :=
  processQueueAux now s.queue { s with queue := [] }

/-- `schedule(task)` at time `now`: if `_canProceed`, execute immediately
(second component `true`); otherwise append to the wait queue and arm a retry
timer (timers are modelled as later `processQueue` events). -/
def schedule (s : RLState) (taskId : Nat) (now : Int) : RLState × Bool :=
  let s := cleanState s now
  if canProceed s now then (executeStart s now, true)
  else ({ s with queue := s.queue ++ [taskId] }, false)

/-- Task completion (the `finally` of `_executeTask`): decrement the in-flight
count and immediately re-evaluate the queue. -/
def completeTask (s : RLState) (now : Int) : RLState × List Nat :=
  processQueue { s with activeRequests := s.activeRequests - 1 } now

/-- Spec-side chain of `n` queue admissions from a base state, mirroring one
`_processQueue` run: each admission first cleans the timestamps, then starts
the task. -/
def admitChain (s : RLState) (now : Int) : Nat → RLState
  | 0 => s
  | n + 1 => executeStart (cleanState (admitChain s now n) now) now

/-- `compareAuthors` of the validation service: first-author family-name
similarity, blended 70/30 with last-author similarity when both lists have
more than one author. -/
def compareAuthors (extracted validated : List Author) : ℚ :=
  match extracted, validated with
  | [], _ => 0
  | _, [] => 0
  | e0 :: etl, v0 :: vtl =>
    let ext1 := jsToLower e0.family
    let val1 := jsToLower v0.family
    if ext1 = "" ∨ val1 = "" then 0
    else
      let firstAuthorSim := stringSimilarity ext1 val1
      match etl.getLast?, vtl.getLast? with
      | some eL, some vL =>
        let lastAuthorSim := stringSimilarity (jsToLower eL.family) (jsToLower vL.family)
        firstAuthorSim * mkRat 7 10 + lastAuthorSim * mkRat 3 10
      | _, _ => firstAuthorSim

/-- Decimal value of a run of digit characters (the `parseInt` of a pure digit
string). -/
def natOfDigits (ds : List Char) : Nat :=
  ds.foldl (fun acc c => acc * 10 + (c.toNat - '0'.toNat)) 0

/-- Split off the maximal leading digit run. -/
def splitLeadingDigits (cs : List Char) : List Char × List Char :=
  (cs.takeWhile Char.isDigit, cs.dropWhile Char.isDigit)

/-- Try to match the regex `(\d+)[-–](\d+)` at the head of the character list:
a digit run, a hyphen or en-dash, a digit run. -/
def pagesAttempt (cs : List Char) : Option (List Char × List Char) :=
  let d1 := (splitLeadingDigits cs).1
  let rest1 := (splitLeadingDigits cs).2
  if d1 = [] then none
  else
    match rest1 with
    | dash :: rest2 =>
      if dash = '-' ∨ dash = '–' then
        let d2 := (splitLeadingDigits rest2).1
        if d2 = [] then none else some (d1, d2)
      else none
    | [] => none

/-- Leftmost match of `(\d+)[-–](\d+)` in the string (the semantics of
`String.prototype.match` with an unanchored regex). -/
def findPagesMatch : List Char → Option (List Char × List Char)
  | [] => none
  | c :: rest =>
    match pagesAttempt (c :: rest) with
    | some m => some m
    | none => findPagesMatch rest

/-- The `normalize` closure of `comparePages`: canonicalize `A-B` page ranges,
expanding abbreviated end pages (`806-14` means `806-814`) by splicing the end
digits over the tail of the start page; anything else is trimmed verbatim. -/
def normalizePages (p : String) : String :=
  match findPagesMatch p.data with
  | some (d1, d2) =>
    let pstart := natOfDigits d1
    let pend := natOfDigits d2
    let startStr := toString pstart
    let endStr := toString pend
    let pend2 :=
      if pend < pstart then
        natOfDigits ((startStr.data.take (startStr.length - endStr.length)) ++ endStr.data)
      else pend
    toString pstart ++ "-" ++ toString pend2
  | none => jsTrim p

/-- `comparePages`: exact equality of normalized page ranges, 0 when either
side is absent. -/
def comparePages (pages1 pages2 : String) : ℚ :=
  if pages1 = "" ∨ pages2 = "" then 0
  else if normalizePages pages1 = normalizePages pages2 then 1 else 0

/-- JS truthiness of a normalized `year` value: present and non-zero (`null`,
`NaN` and `0` are all falsy; `NaN` is modelled by `none`). -/
def yearTruthy : Option Int → Bool
  | none => false
  | some y => y ≠ 0

/-- Contribution of one field to `weightedSum`: `score * weight` when the
field was compared, else nothing. -/
def scoreContrib (w : ℚ) : Option ℚ → ℚ
  | some s => s * w
  | none => 0

/-- Contribution of one field to `totalWeight`: its weight when the field was
compared, else nothing. -/
def weightContrib (w : ℚ) : Option ℚ → ℚ
  | some _ => w
  | none => 0

/-- The accumulated `weightedSum` of `computeMatchScore`, as a sum of
per-field contributions. -/
def weightedSumOf (fs : FieldScores) : ℚ :=
  scoreContrib FIELD_WEIGHTS.title fs.title
  + scoreContrib FIELD_WEIGHTS.authors fs.authors
  + scoreContrib FIELD_WEIGHTS.year fs.year
  + scoreContrib FIELD_WEIGHTS.journal fs.journal
  + scoreContrib FIELD_WEIGHTS.volume fs.volume
  + scoreContrib FIELD_WEIGHTS.pages fs.pages

/-- The accumulated `totalWeight` of `computeMatchScore`: the weights of the
fields actually compared. -/
def totalWeightOf (fs : FieldScores) : ℚ :=
  weightContrib FIELD_WEIGHTS.title fs.title
  + weightContrib FIELD_WEIGHTS.authors fs.authors
  + weightContrib FIELD_WEIGHTS.year fs.year
  + weightContrib FIELD_WEIGHTS.journal fs.journal
  + weightContrib FIELD_WEIGHTS.volume fs.volume
  + weightContrib FIELD_WEIGHTS.pages fs.pages

/-- `Object.keys(fieldScores).length`: the number of fields compared. -/
def countSome (fs : FieldScores) : Nat :=
  (if fs.title.isSome then 1 else 0) + (if fs.authors.isSome then 1 else 0)
  + (if fs.year.isSome then 1 else 0) + (if fs.journal.isSome then 1 else 0)
  + (if fs.volume.isSome then 1 else 0) + (if fs.pages.isSome then 1 else 0)

/-- `computeMatchScore(extracted, validated)` of the validation service, over
the normalized common shape (`normalizeExtracted` is applied by the callers in
this model, exactly where the source applies it inside `computeMatchScore`).
Each field is compared only when truthy on both sides; `weightedSum` and
`totalWeight` accumulate exactly the compared contributions. -/
def computeMatchScore (extNorm valNorm : NormRecord) : MatchScore :=
  let titleOpt : Option ℚ :=
    if extNorm.title ≠ "" ∧ valNorm.title ≠ "" then
      some (stringSimilarity (jsToLower extNorm.title) (jsToLower valNorm.title))
    else none
  let authorsOpt : Option ℚ :=
    if extNorm.authors ≠ [] ∧ valNorm.authors ≠ [] then
      some (compareAuthors extNorm.authors valNorm.authors)
    else none
  let yearOpt : Option ℚ :=
    if yearTruthy extNorm.year = true ∧ yearTruthy valNorm.year = true then
      some (if extNorm.year = valNorm.year then 1 else 0)
    else none
  let journalOpt : Option ℚ :=
    if extNorm.journal ≠ "" ∧ valNorm.journal ≠ "" then
      some (stringSimilarity (jsToLower extNorm.journal) (jsToLower valNorm.journal))
    else none
  let volumeOpt : Option ℚ :=
    if extNorm.volume ≠ "" ∧ valNorm.volume ≠ "" then
      some (if extNorm.volume = valNorm.volume then (1 : ℚ) else 0)
    else none
  let pagesOpt : Option ℚ :=
    if extNorm.pages ≠ "" ∧ valNorm.pages ≠ "" then
      some (comparePages extNorm.pages valNorm.pages)
    else none
  let fieldScores : FieldScores :=
    ⟨titleOpt, authorsOpt, yearOpt, journalOpt, volumeOpt, pagesOpt⟩
  let totalWeight := totalWeightOf fieldScores
  let weightedSum := weightedSumOf fieldScores
  { overall := if totalWeight > 0 then weightedSum / totalWeight else 0
    fields := fieldScores
    fieldsCompared := countSome fieldScores }

/-- `getValidationStatus`: verdict from the overall score (the human-readable
message built alongside it is presentational and omitted). -/
def getValidationStatus (matchScore : MatchScore) : String :=
  if matchScore.overall ≥ THRESHOLDS.valid then "valid"
  else if matchScore.overall ≥ THRESHOLDS.suspicious then "suspicious"
  else "mismatch"

/-- `parseInt(s, 10)`: skip leading whitespace, optional sign, then the maximal
leading digit run; `none` models `NaN`. -/
def parseIntJS (s : String) : Option Int :=
  let cs := s.data.dropWhile Char.isWhitespace
  match cs with
  | '-' :: rest =>
    let ds := rest.takeWhile Char.isDigit
    if ds = [] then none else some (-(natOfDigits ds : Int))
  | '+' :: rest =>
    let ds := rest.takeWhile Char.isDigit
    if ds = [] then none else some (natOfDigits ds : Int)
  | _ =>
    let ds := cs.takeWhile Char.isDigit
    if ds = [] then none else some (natOfDigits ds : Int)

/-- `normalizeExtracted`: the extracted citation mapped to the common shape.
Authors are already the structured `\x7bfamily, given\x7d` records in this model (the
string-splitting branches of the source handle a stringly-typed author list
the extractor can emit; the typed model always takes the structured branch,
whose `a.family || a.lastName` fallback degenerates to `a.family`). -/
def normalizeExtracted (citation : Extraction) : NormRecord :=
  { title := citation.title
    authors := citation.authors
    year := if citation.year ≠ "" then parseIntJS citation.year else none
    journal := if citation.container_title ≠ "" then citation.container_title else citation.journal
    volume := citation.volume
    pages := if citation.pages ≠ "" then citation.pages else citation.page
    doi := citation.doi }

/-- `buildBibliographicQuery`: first-author family name, year, first five
title words, container title, joined by spaces. -/
def buildBibliographicQuery (citation : Extraction) : String :=
  let parts : List String :=
    (match citation.authors with
     | firstAuthor :: _ => if firstAuthor.family ≠ "" then [firstAuthor.family] else []
     | [] => [])
    ++ (if citation.year ≠ "" then [citation.year] else [])
    ++ (if citation.title ≠ "" then [String.intercalate " " ((jsSplitWs citation.title).take 5)] else [])
    ++ (if citation.container_title ≠ "" then [citation.container_title] else [])
  String.intercalate " " parts

/-- `findBestMatch`: scan the search candidates (already normalized in this
model) keeping the strictly best overall score; the first candidate of a tie
wins. -/
def findBestMatch (extNorm : NormRecord) (results : List NormRecord) :
    Option (NormRecord × MatchScore) :=
  results.foldl
    (fun best result =>
      let matchScore := computeMatchScore extNorm result
      match best with
      | none => some (result, matchScore)
      | some (b, bestScore) =>
        if matchScore.overall > bestScore.overall then some (result, matchScore)
        else some (b, bestScore))
    none

/-- Outcomes of the external lookups consumed by `validateCitation`.  Each
call either throws (`error`, with the message) or returns a record (`none`
models the null of a 404).  The bibliographic search receives the query string
the source builds and either throws or returns a candidate list.  External raw
records are abstracted by the normalized shape the pure normalizers map them
to. -/
structure LookupOracle where
  crossrefDoi : Except String (Option NormRecord)
  openalexDoi : Except String (Option NormRecord)
  openalexPmid : Except String (Option NormRecord)
  crossrefSearch : String → Except String (List NormRecord)

/-- Fallback ending of `validateCitation`: nothing verified the citation. -/
def noValidation (citation : Extraction) : Extraction :=
  { citation with validationStatus := "invalid" }

/-- Step 3 of `validateCitation`: bibliographic free-text search, guarded by a
try/catch that absorbs a thrown search error. -/
def validateCitationStep3 (citation : Extraction) (oracle : LookupOracle) : Extraction :=
  if citation.query_bibliographic ≠ "" ∨ citation.raw_text ≠ "" then
    let query :=
      if citation.query_bibliographic ≠ "" then citation.query_bibliographic
      else buildBibliographicQuery citation
    match oracle.crossrefSearch query with
    | .ok crossRefResults =>
      if crossRefResults ≠ [] then
        match findBestMatch (normalizeExtracted citation) crossRefResults with
        | some m =>
          { citation with
            validation := some { (citation.validation.getD {}) with
                                 crossref := some m.1, matchScore := some m.2 }
            validationStatus := getValidationStatus m.2 }
        | none => noValidation citation
      else noValidation citation
    | .error _ => noValidation citation
  else noValidation citation

/-- Step 2 of `validateCitation`: PMID lookup against OpenAlex, its try/catch
absorbing a thrown lookup error. -/
def validateCitationStep2 (citation : Extraction) (oracle : LookupOracle) : Extraction :=
  if citation.pmid ≠ "" then
    match oracle.openalexPmid with
    | .ok (some normalized) =>
      let matchScore := computeMatchScore (normalizeExtracted citation) normalized
      { citation with
        validation := some { (citation.validation.getD {}) with
                             openalex := some normalized, matchScore := some matchScore }
        validationStatus := getValidationStatus matchScore }
    | _ => validateCitationStep3 citation oracle
  else validateCitationStep3 citation oracle

/-- `validateCitation` of the validation service.  The validation bag is
attached up front; step 1 runs the two DOI lookups concurrently with inner
`.catch(() => null)` handlers (so a thrown lookup is indistinguishable from a
404), prefers the CrossRef record, and keeps the OpenAlex record alongside;
steps 2 and 3 follow when step 1 produced nothing. -/
def validateCitation (citation : Extraction) (oracle : LookupOracle) : Extraction :=
  let citation := { citation with validation := some {} }
  if citation.doi ≠ "" then
    let crossRefResult :=
      match oracle.crossrefDoi with
      | .ok r => r
      | .error _ => none
    let openAlexResult :=
      match oracle.openalexDoi with
      | .ok r => r
      | .error _ => none
    match crossRefResult with
    | some normalized =>
      let matchScore := computeMatchScore (normalizeExtracted citation) normalized
      { citation with
        validation := some { crossref := some normalized
                             openalex := openAlexResult
                             matchScore := some matchScore }
        validationStatus := getValidationStatus matchScore }
    | none =>
      match openAlexResult with
      | some normalized =>
        let matchScore := computeMatchScore (normalizeExtracted citation) normalized
        { citation with
          validation := some { openalex := some normalized, matchScore := some matchScore }
          validationStatus := getValidationStatus matchScore }
      | none => validateCitationStep2 citation oracle
  else validateCitationStep2 citation oracle

/-- Run state of the `processAllWindows` merge loop.  `routed` collects the
citations handed to the validation scheduler, in dispatch order (the source
appends each to `state.extractions` once its validation settles); `errors`
collects the error-marked records the loop appends synchronously; `pending` is
the pending incomplete `position=end` set. -/
structure PWState where
  routed : List Extraction := []
  errors : List Extraction := []
  pending : List Extraction := []
  extractionIndex : Nat := 0
  shouldCancel : Bool := false
deriving DecidableEq

/-- `findMatchingPendingEnd`: index of the first pending `end` extraction the
given `start` extraction merges with, guarded on the start side. -/
def findMatchingPendingEnd (pending : List Extraction) (startExtraction : Extraction) :
    Option Nat :=
  if startExtraction.complete = some false ∧ startExtraction.position = some "start" then
    pending.findIdx? (fun p => extractionsOverlap p startExtraction)
  else none

/-- The downward supersede scan of case 3: remove the last pending entry the
complete extraction supersedes (the source iterates `k` from the end and
breaks on the first hit). -/
def removeLastSuperseded (pending : List Extraction) (processed : Extraction) :
    List Extraction :=
  match pending.reverse.findIdx? (fun p => completeSupersedes p processed) with
  | some i => pending.eraseIdx (pending.length - 1 - i)
  | none => pending

/-- The per-citation loop of one window of `processAllWindows`: case 1 merges
an incomplete `start` with a matching pending `end`; case 2 holds an
incomplete `end` (when not in the last window) for the next window; case 3
lets a complete extraction supersede a pending `end`; case 4 routes the
citation to validation.  Returns the updated state and the new pending-end
candidates gathered this window. -/
def processCitations (isLastWindow : Bool) (windowIndex : Nat) :
    List Extraction → PWState → List Extraction → PWState × List Extraction
  | [], st, newIncompleteEnd => (st, newIncompleteEnd)
  | citation :: rest, st, newIncompleteEnd =>
    if st.shouldCancel = true then (st, newIncompleteEnd)
    else
      let processed := processExtraction citation st.extractionIndex windowIndex
      match findMatchingPendingEnd st.pending processed with
      | some matchIndex =>
        let endExtraction := st.pending.getD matchIndex {}
        let merged := mergeExtractions endExtraction processed
        processCitations isLastWindow windowIndex rest
          { st with pending := st.pending.eraseIdx matchIndex
                    routed := st.routed ++ [merged] }
          newIncompleteEnd
      | none =>
        if processed.complete = some false ∧ processed.position = some "end" ∧ isLastWindow = false then
          processCitations isLastWindow windowIndex rest
            { st with extractionIndex := st.extractionIndex + 1 }
            (newIncompleteEnd ++ [processed])
        else
          let pending2 :=
            if processed.complete ≠ some false then removeLastSuperseded st.pending processed
            else st.pending
          processCitations isLastWindow windowIndex rest
            { st with pending := pending2
                      routed := st.routed ++ [processed]
                      extractionIndex := st.extractionIndex + 1 }
            newIncompleteEnd

/-- The window loop of `processAllWindows` over the per-window extraction-call
outcomes (`Except` models a thrown extraction call with its error message).
On failure: flush every pending `end` extraction to validation unmerged,
record one error-marked extraction for the window, continue.  On success: run
the citation loop, flush the pending entries that were not matched, and carry
the new pending set.  After the last window the remaining pending entries are
flushed (unless cancelled). -/
def processLoop (totalWindows : Nat) :
    List (Except String (List Extraction)) → Nat → PWState → PWState
  | [], _, st =>
    if st.shouldCancel = true then st
    else { st with routed := st.routed ++ st.pending, pending := [] }
  | result :: rest, i, st =>
    if st.shouldCancel = true then st
    else
      match result with
      | .error msg =>
        let st2 := { st with routed := st.routed ++ st.pending, pending := [] }
        let errorExtraction := createErrorExtraction st2.extractionIndex (i + 1) msg
        processLoop totalWindows rest (i + 1)
          { st2 with errors := st2.errors ++ [errorExtraction]
                     extractionIndex := st2.extractionIndex + 1 }
      | .ok citations =>
        let stepResult := processCitations (decide (i + 1 = totalWindows)) (i + 1) citations st []
        processLoop totalWindows rest (i + 1)
          { stepResult.1 with routed := stepResult.1.routed ++ stepResult.1.pending
                              pending := stepResult.2 }

/-- `processAllWindows`, up to the point where all validations have settled:
the subsequent deduplication pass and line-map rebuild are modelled separately
(`deduplicateExtractions` above). -/
def processAllWindows (results : List (Except String (List Extraction))) (st : PWState) :
    PWState :=
  processLoop results.length results 0 st

/-- Fixture: first member of a duplicate pair with distinct DOIs but identical
title, first author and year. -/
def dupFixtureA : Extraction :=
  { id := "extraction-0", doi := "10.1/a", title := "the same title"
    authors := [{ family := "Smith" }], year := "2020" }

/-- Fixture: second member, differing from `dupFixtureA` only in its DOI. -/
def dupFixtureB : Extraction :=
  { id := "extraction-1", doi := "10.1/b", title := "the same title"
    authors := [{ family := "Smith" }], year := "2020" }

/-- Fixture: a pair with distinct DOIs and no other point of agreement. -/
def unrelatedFixtureA : Extraction :=
  { id := "extraction-0", doi := "10.1/a", title := "alpha beta gamma"
    authors := [{ family := "Smith" }] }

/-- Fixture: see `unrelatedFixtureA`. -/
def unrelatedFixtureB : Extraction :=
  { id := "extraction-1", doi := "10.1/b", title := "totally different words here"
    authors := [{ family := "Jones" }] }

/-- Fixture for Scenario A: a 4500-character text. -/
def scenarioAText : List Char := List.replicate 4500 'a'

/-- Fixture: identifier-free extraction whose title is a token permutation of
its partner, maximal under token overlap but dissimilar character-wise. -/
def tokenSwapA : Extraction :=
  { id := "extraction-0", title := "a b", authors := [{ family := "Smith" }] }

/-- Fixture: see `tokenSwapA`. -/
def tokenSwapB : Extraction :=
  { id := "extraction-1", title := "b a", authors := [{ family := "Smith" }] }

/-- Fixture for Scenario B: the `position=end` primary extraction. -/
def scenarioBEnd : Extraction :=
  { complete := some false, position := some "end", doi := "10.1/x"
    raw_text := "Smith J. Intro to" }

/-- Fixture for Scenario B: the `position=start` secondary extraction. -/
def scenarioBStart : Extraction :=
  { complete := some false, position := some "start", doi := "10.1/x"
    raw_text := "Foo. Nature 2020" }

/-- Fixture for the rate-limiter trace: a limiter allowing one request per
minute with unbounded concurrency. -/
def rlFixture0 : RLState := { requestsPerMinute := some 1 }

/-- Fixture: state after task 0 is scheduled (and admitted) at time 0. -/
def rlFixture1 : RLState := (schedule rlFixture0 0 0).1

/-- Fixture: state after task 1 is scheduled at time 1 and, the rate budget
being exhausted, queued. -/
def rlFixture2 : RLState := (schedule rlFixture1 1 1).1

/-- Fixture for Scenario E: the incomplete `position=end` citation pending
from window 2. -/
def scenarioEPending : Extraction :=
  { complete := some false, position := some "end"
    title := "Pending citation title cut at the window edge" }

/-- Fixture for Scenario E: the complete citation of window 4. -/
def scenarioEWin4 : Extraction :=
  { complete := some true, title := "Fourth window citation" }

/-- Fixture for Scenario E: the complete citation of window 5. -/
def scenarioEWin5 : Extraction :=
  { complete := some true, title := "Fifth window citation" }

/-- Fixture for Scenario E: five windows whose extraction call throws on
window 3. -/
def scenarioEResults : List (Except String (List Extraction)) :=
  [.ok [], .ok [scenarioEPending], .error "Service unavailable"
   , .ok [scenarioEWin4], .ok [scenarioEWin5]]

/-- C1 counterexample: two non-error extractions carrying distinct
(case-insensitively different) DOIs are nevertheless deduplicated — the strict
rule falls through the failed DOI comparison to the title/author/year
criterion, and `deduplicateExtractions` removes the second record. -/
theorem deduplicateExtractions_removes_distinct_doi_pair :
    dupFixtureA.error = false ∧ dupFixtureB.error = false
    ∧ dupFixtureA.doi ≠ "" ∧ dupFixtureB.doi ≠ ""
    ∧ jsToLower dupFixtureA.doi ≠ jsToLower dupFixtureB.doi
    ∧ deduplicateExtractions [dupFixtureA, dupFixtureB] = [dupFixtureA] := by
  refine ⟨rfl, rfl, by decide, by decide, by decide, ?_⟩
  have hdup : extractionsAreDuplicates dupFixtureA dupFixtureB = true := by decide
  have hscore : scoreExtraction dupFixtureB ≤ scoreExtraction dupFixtureA := by
    simp [scoreExtraction, dupFixtureA, dupFixtureB]
  have heA : dupFixtureA.error = false := rfl
  have heB : dupFixtureB.error = false := rfl
  have hiA : dupFixtureA.id = "extraction-0" := rfl
  have hiB : dupFixtureB.id = "extraction-1" := rfl
  simp [deduplicateExtractions, dedupOuterLoop, dedupInner, hdup, ge_iff_le, hscore,
    heA, heB, hiA, hiB]

/-- C1 (amended): two non-error extractions with distinct DOIs are both kept
by deduplication provided the pair also fails the PMID and ISBN identity
checks and the non-identifier criterion (title similarity at least 0.8 under
`calculateSimilarity` together with matching first-author family names and
non-conflicting years); a differing DOI alone does not protect the pair. -/
theorem deduplicateExtractions_keeps_unrelated_distinct_doi_pair
    (e1 e2 : Extraction)
    (h1 : e1.error = false) (h2 : e2.error = false)
    (hd1 : e1.doi ≠ "") (hd2 : e2.doi ≠ "")
    (hdoi : jsToLower e1.doi ≠ jsToLower e2.doi)
    (hpmid : pmidMatch e1 e2 = false)
    (hisbn : isbnMatch e1 e2 = false)
    (hrest : calculateSimilarity (jsTrim (jsToLower e1.title)) (jsTrim (jsToLower e2.title)) < mkRat 8 10
             ∨ firstAuthorStrictMatch e1 e2 = false
             ∨ (e1.year ≠ "" ∧ e2.year ≠ "" ∧ e1.year ≠ e2.year)) :
    extractionsAreDuplicates e1 e2 = false
    ∧ deduplicateExtractions [e1, e2] = [e1, e2] := by
  have hdoiMatch : doiMatch e1 e2 = false := by
    simp [doiMatch, hdoi]
  have hdup : extractionsAreDuplicates e1 e2 = false := by
    simp only [extractionsAreDuplicates, hdoiMatch, hpmid, hisbn, Bool.false_eq_true,
      if_false]
    split_ifs with ht hsim hauth hyear
    · rfl
    · rfl
    · rfl
    · rfl
    · rcases hrest with hr | hr | hr
      · exact absurd hr hsim
      · simp [hr] at hauth
      · exact absurd (by simp [hr.1, hr.2.1, hr.2.2]) hyear
  refine ⟨hdup, ?_⟩
  simp [deduplicateExtractions, dedupOuterLoop, dedupInner, h1, h2, hdup]

/-- Witness for the amended C1 theorem at a concrete unrelated pair. -/
theorem deduplicateExtractions_keeps_unrelated_distinct_doi_pair_witness :
    extractionsAreDuplicates unrelatedFixtureA unrelatedFixtureB = false
    ∧ deduplicateExtractions [unrelatedFixtureA, unrelatedFixtureB]
      = [unrelatedFixtureA, unrelatedFixtureB] :=
  deduplicateExtractions_keeps_unrelated_distinct_doi_pair unrelatedFixtureA unrelatedFixtureB
    rfl rfl (by decide) (by decide) (by decide) (by decide) (by decide)
    (Or.inr (Or.inl (by decide)))

/-- C2 counterexample. -/
theorem createWindows_scenarioA_final_window_starts_at_2500 :
    (createWindows scenarioAText 2000 200).map (fun w => (w.start, w.stop))
      = [(0, 2000), (1800, 3800), (2500, 4500)]
    ∧ [(0, 2000), (1800, 3800), (2500, 4500)]
      ≠ [((0 : Nat), (2000 : Nat)), (1800, 3800), (2700, 4500)] := by
  have hlen : scenarioAText.length = 4500 := by unfold scenarioAText; rw [List.length_replicate]
  have hall : scenarioAText.all (fun c => c.isWhitespace) = false := by decide
  have h : createWindows scenarioAText 2000 200
      = [⟨0, 0, 2000, 2000⟩, ⟨1, 1800, 3800, 2000⟩, ⟨2, 2500, 4500, 2000⟩] := by
    unfold createWindows
    rw [hall, hlen]
    decide
  rw [h]
  exact ⟨by decide, by decide⟩

/-- C2 (amended). -/
theorem createWindows_scenarioA (text : List Char)
    (hlen : text.length = 4500)
    (hcontent : text.all (fun c => c.isWhitespace) = false) :
    createWindows text 2000 200
      = [⟨0, 0, 2000, 2000⟩, ⟨1, 1800, 3800, 2000⟩, ⟨2, 2500, 4500, 2000⟩] := by
  unfold createWindows
  rw [hcontent, hlen]
  decide

/-- Witness for the amended C2 theorem on a concrete 4500-character text. -/
theorem createWindows_scenarioA_witness :
    createWindows scenarioAText 2000 200
      = [⟨0, 0, 2000, 2000⟩, ⟨1, 1800, 3800, 2000⟩, ⟨2, 2500, 4500, 2000⟩] :=
  createWindows_scenarioA scenarioAText (by unfold scenarioAText; rw [List.length_replicate]) (by decide)

/-- C3 counterexample: an identifier-free pair whose titles are token
permutations of one another — Jaccard token-overlap similarity 1 (≥ 0.8) —
with equal first authors and no years, which the claimed criterion classifies
as duplicates; the code classifies them as non-duplicates because its
character-based `calculateSimilarity` scores the titles below 0.8. -/
theorem extractionsAreDuplicates_not_jaccard :
    doiMatch tokenSwapA tokenSwapB = false
    ∧ pmidMatch tokenSwapA tokenSwapB = false
    ∧ isbnMatch tokenSwapA tokenSwapB = false
    ∧ stringSimilarity (jsTrim (jsToLower tokenSwapA.title)) (jsTrim (jsToLower tokenSwapB.title))
        ≥ mkRat 8 10
    ∧ firstAuthorStrictMatch tokenSwapA tokenSwapB = true
    ∧ tokenSwapA.year = "" ∧ tokenSwapB.year = ""
    ∧ extractionsAreDuplicates tokenSwapA tokenSwapB = false := by
  decide

/-- C3 (amended): absent any identifier match, two extractions are classified
as duplicates if and only if both carry titles whose lower-cased trimmed forms
score at least 0.8 under the character-based `calculateSimilarity` (not the
token-overlap `stringSimilarity` of the claim), their first-author family
names are present and equal (case-insensitively, after trimming), and,
whenever both carry a year, the years are equal; a side without authors can
never form a non-identifier duplicate. -/
theorem extractionsAreDuplicates_non_identifier_iff
    (e1 e2 : Extraction)
    (hdoi : doiMatch e1 e2 = false)
    (hpmid : pmidMatch e1 e2 = false)
    (hisbn : isbnMatch e1 e2 = false) :
    (extractionsAreDuplicates e1 e2 = true
      ↔ (e1.title ≠ "" ∧ e2.title ≠ ""
         ∧ mkRat 8 10 ≤ calculateSimilarity (jsTrim (jsToLower e1.title)) (jsTrim (jsToLower e2.title))
         ∧ firstAuthorStrictMatch e1 e2 = true
         ∧ (e1.year ≠ "" → e2.year ≠ "" → e1.year = e2.year)))
    ∧ ((e1.authors = [] ∨ e2.authors = []) → extractionsAreDuplicates e1 e2 = false) := by
  have hauthors : (e1.authors = [] ∨ e2.authors = []) → firstAuthorStrictMatch e1 e2 = false := by
    intro h
    unfold firstAuthorStrictMatch
    rcases h with h | h
    · rw [h]
    · rw [h]
      rcases e1.authors with _ | ⟨a, l⟩ <;> rfl
  constructor
  · simp only [extractionsAreDuplicates, hdoi, hpmid, hisbn, Bool.false_eq_true, if_false]
    split_ifs with ht hsim hauth hyear
    · simp only [Bool.false_eq_true, false_iff]
      intro hc
      rcases ht with ht | ht
      · exact hc.1 ht
      · exact hc.2.1 ht
    · push_neg at ht
      simp only [Bool.false_eq_true, false_iff]
      intro hc
      exact absurd hc.2.2.1 (not_le.mpr hsim)
    · push_neg at ht
      simp only [Bool.false_eq_true, false_iff]
      intro hc
      simp [hc.2.2.2.1] at hauth
    · push_neg at ht
      simp only [Bool.false_eq_true, false_iff]
      intro hc
      simp only [Bool.and_eq_true, decide_eq_true_eq, ne_eq] at hyear
      exact hyear.2 (hc.2.2.2.2 hyear.1.1 hyear.1.2)
    · push_neg at ht
      simp only [true_iff]
      rw [not_lt] at hsim
      have hy : e1.year ≠ "" → e2.year ≠ "" → e1.year = e2.year := by
        intro hy1 hy2
        by_contra hne
        exact hyear (by simp [hy1, hy2, hne])
      have ha : firstAuthorStrictMatch e1 e2 = true := by
        revert hauth
        cases firstAuthorStrictMatch e1 e2 <;> simp
      exact ⟨ht.1, ht.2, hsim, ha, hy⟩
  · intro h
    simp only [extractionsAreDuplicates, hdoi, hpmid, hisbn, Bool.false_eq_true, if_false]
    split_ifs with ht hsim hauth hyear
    · rfl
    · rfl
    · rfl
    · rfl
    · rw [hauthors h] at hauth
      simp at hauth

/-- Witness for the amended C3 theorem: the duplicate classification of
`dupFixtureA`/`dupFixtureB` agrees with the character-similarity criterion. -/
theorem extractionsAreDuplicates_non_identifier_iff_witness :
    extractionsAreDuplicates dupFixtureA dupFixtureB = true
    ↔ (dupFixtureA.title ≠ "" ∧ dupFixtureB.title ≠ ""
       ∧ mkRat 8 10 ≤ calculateSimilarity (jsTrim (jsToLower dupFixtureA.title))
           (jsTrim (jsToLower dupFixtureB.title))
       ∧ firstAuthorStrictMatch dupFixtureA dupFixtureB = true
       ∧ (dupFixtureA.year ≠ "" → dupFixtureB.year ≠ "" → dupFixtureA.year = dupFixtureB.year)) :=
  (extractionsAreDuplicates_non_identifier_iff dupFixtureA dupFixtureB
    (by decide) (by decide) (by decide)).1

set_option maxHeartbeats 2000000 in
/-- C5: merging a `position=end` primary with a secondary yields a complete
record with `position` and `reason` removed; `raw_text` is the primary text,
a newline, then the secondary text when both are present (otherwise whichever
is present); and each simple field `doi, pmid, isbn, year, volume, issue,
pages` is taken from the secondary only where the primary is empty — a
present primary value is never overwritten.  The Scenario B instance is
included as the final conjunct. -/
theorem mergeExtractions_end_primary_spec
    (master slave : Extraction)
    (hpos : master.position = some "end") :
    (mergeExtractions master slave).complete = some true
    ∧ (mergeExtractions master slave).position = none
    ∧ (mergeExtractions master slave).reason = none
    ∧ (mergeExtractions master slave).raw_text
        = (if master.raw_text ≠ "" ∧ slave.raw_text ≠ ""
           then master.raw_text ++ "\n" ++ slave.raw_text
           else if master.raw_text = "" then slave.raw_text else master.raw_text)
    ∧ (mergeExtractions master slave).doi = (if master.doi ≠ "" then master.doi else slave.doi)
    ∧ (mergeExtractions master slave).pmid = (if master.pmid ≠ "" then master.pmid else slave.pmid)
    ∧ (mergeExtractions master slave).isbn = (if master.isbn ≠ "" then master.isbn else slave.isbn)
    ∧ (mergeExtractions master slave).year = (if master.year ≠ "" then master.year else slave.year)
    ∧ (mergeExtractions master slave).volume
        = (if master.volume ≠ "" then master.volume else slave.volume)
    ∧ (mergeExtractions master slave).issue
        = (if master.issue ≠ "" then master.issue else slave.issue)
    ∧ (mergeExtractions master slave).pages
        = (if master.pages ≠ "" then master.pages else slave.pages)
    ∧ ((mergeExtractions scenarioBEnd scenarioBStart).complete = some true
       ∧ (mergeExtractions scenarioBEnd scenarioBStart).raw_text
           = "Smith J. Intro to\nFoo. Nature 2020"
       ∧ (mergeExtractions scenarioBEnd scenarioBStart).position = none
       ∧ (mergeExtractions scenarioBEnd scenarioBStart).reason = none) := by
  refine ⟨?_, ?_, ?_, ?_, ?_, ?_, ?_, ?_, ?_, ?_, ?_, by decide, by decide, by decide, by decide⟩
  · simp only [mergeExtractions, hpos, reduceIte, mergeMarkComplete, mergeRawText, mergeTitle,
      mergeContainerTitle, mergeQueryBibliographic, mergeDoi, mergePmid, mergeIsbn, mergeYear,
      mergeVolume, mergeIssue, mergePages, mergeAuthors,
      apply_ite Extraction.complete, ite_self]
  · simp only [mergeExtractions, hpos, reduceIte, mergeMarkComplete, mergeRawText, mergeTitle,
      mergeContainerTitle, mergeQueryBibliographic, mergeDoi, mergePmid, mergeIsbn, mergeYear,
      mergeVolume, mergeIssue, mergePages, mergeAuthors,
      apply_ite Extraction.position, ite_self]
  · simp only [mergeExtractions, hpos, reduceIte, mergeMarkComplete, mergeRawText, mergeTitle,
      mergeContainerTitle, mergeQueryBibliographic, mergeDoi, mergePmid, mergeIsbn, mergeYear,
      mergeVolume, mergeIssue, mergePages, mergeAuthors,
      apply_ite Extraction.reason, ite_self]
  · simp only [mergeExtractions, hpos, reduceIte, mergeMarkComplete, mergeRawText, mergeTitle,
      mergeContainerTitle, mergeQueryBibliographic, mergeDoi, mergePmid, mergeIsbn, mergeYear,
      mergeVolume, mergeIssue, mergePages, mergeAuthors,
      apply_ite Extraction.raw_text, ite_self]
    split_ifs <;> simp_all
  · simp only [mergeExtractions, hpos, reduceIte, mergeMarkComplete, mergeRawText, mergeTitle,
      mergeContainerTitle, mergeQueryBibliographic, mergeDoi, mergePmid, mergeIsbn, mergeYear,
      mergeVolume, mergeIssue, mergePages, mergeAuthors,
      apply_ite Extraction.doi, ite_self]
    split_ifs <;> simp_all
  · simp only [mergeExtractions, hpos, reduceIte, mergeMarkComplete, mergeRawText, mergeTitle,
      mergeContainerTitle, mergeQueryBibliographic, mergeDoi, mergePmid, mergeIsbn, mergeYear,
      mergeVolume, mergeIssue, mergePages, mergeAuthors,
      apply_ite Extraction.pmid, ite_self]
    split_ifs <;> simp_all
  · simp only [mergeExtractions, hpos, reduceIte, mergeMarkComplete, mergeRawText, mergeTitle,
      mergeContainerTitle, mergeQueryBibliographic, mergeDoi, mergePmid, mergeIsbn, mergeYear,
      mergeVolume, mergeIssue, mergePages, mergeAuthors,
      apply_ite Extraction.isbn, ite_self]
    split_ifs <;> simp_all
  · simp only [mergeExtractions, hpos, reduceIte, mergeMarkComplete, mergeRawText, mergeTitle,
      mergeContainerTitle, mergeQueryBibliographic, mergeDoi, mergePmid, mergeIsbn, mergeYear,
      mergeVolume, mergeIssue, mergePages, mergeAuthors,
      apply_ite Extraction.year, ite_self]
    split_ifs <;> simp_all
  · simp only [mergeExtractions, hpos, reduceIte, mergeMarkComplete, mergeRawText, mergeTitle,
      mergeContainerTitle, mergeQueryBibliographic, mergeDoi, mergePmid, mergeIsbn, mergeYear,
      mergeVolume, mergeIssue, mergePages, mergeAuthors,
      apply_ite Extraction.volume, ite_self]
    split_ifs <;> simp_all
  · simp only [mergeExtractions, hpos, reduceIte, mergeMarkComplete, mergeRawText, mergeTitle,
      mergeContainerTitle, mergeQueryBibliographic, mergeDoi, mergePmid, mergeIsbn, mergeYear,
      mergeVolume, mergeIssue, mergePages, mergeAuthors,
      apply_ite Extraction.issue, ite_self]
    split_ifs <;> simp_all
  · simp only [mergeExtractions, hpos, reduceIte, mergeMarkComplete, mergeRawText, mergeTitle,
      mergeContainerTitle, mergeQueryBibliographic, mergeDoi, mergePmid, mergeIsbn, mergeYear,
      mergeVolume, mergeIssue, mergePages, mergeAuthors,
      apply_ite Extraction.pages, ite_self]
    split_ifs <;> simp_all

/-- Witness for C5 at the Scenario B fixtures. -/
theorem mergeExtractions_end_primary_spec_witness :
    (mergeExtractions scenarioBEnd scenarioBStart).complete = some true
    ∧ (mergeExtractions scenarioBEnd scenarioBStart).position = none
    ∧ (mergeExtractions scenarioBEnd scenarioBStart).reason = none :=
  ⟨(mergeExtractions_end_primary_spec scenarioBEnd scenarioBStart rfl).1,
   (mergeExtractions_end_primary_spec scenarioBEnd scenarioBStart rfl).2.1,
   (mergeExtractions_end_primary_spec scenarioBEnd scenarioBStart rfl).2.2.1⟩

/-- Cleaning the rolling timestamp list is idempotent. -/
theorem cleanTimestamps_idem (ts : List Int) (now : Int) :
    cleanTimestamps (cleanTimestamps ts now) now = cleanTimestamps ts now := by
  simp [cleanTimestamps, List.filter_filter]

/-- `_canProceed` is insensitive to a preceding timestamp cleanup (it cleans
internally). -/
theorem canProceed_cleanState (s : RLState) (now : Int) :
    canProceed (cleanState s now) now = canProceed s now := by
  simp [canProceed, cleanState, cleanTimestamps_idem]

/-- `_canProceed` does not read the queue. -/
theorem canProceed_set_queue (s : RLState) (q : List Nat) (now : Int) :
    canProceed { s with queue := q } now = canProceed s now := rfl

/-- Unfolding `admitChain` at the bottom instead of the top. -/
theorem admitChain_shift (s : RLState) (now : Int) (n : Nat) :
    admitChain s now (n + 1) = admitChain (executeStart (cleanState s now) now) now n := by
  induction n with
  | zero => rfl
  | succ m ih =>
    show executeStart (cleanState (admitChain s now (m + 1)) now) now = _
    rw [ih]
    rfl

/-- The queue walk of `_processQueue` admits a FIFO prefix of the queue, each
admission made in a state where `_canProceed` holds, leaves the remainder of
the queue in order, and stops only on an empty queue or a failing
`_canProceed`. -/
theorem processQueueAux_spec (now : Int) (q : List Nat) : ∀ (s : RLState), s.queue = [] →
    ∃ k, (processQueueAux now q s).2 = q.take k
      ∧ (processQueueAux now q s).1.queue = q.drop k
      ∧ (∀ j, j < k → canProceed (cleanState (admitChain s now j) now) now = true)
      ∧ ((processQueueAux now q s).1.queue = []
         ∨ canProceed (processQueueAux now q s).1 now = false) := by
  induction q with
  | nil =>
    intro s hs
    exact ⟨0, rfl, by simp [processQueueAux], fun j hj => absurd hj (by omega),
      Or.inl (by simp [processQueueAux])⟩
  | cons t rest ih =>
    intro s hs
    by_cases hcp : canProceed (cleanState s now) now = true
    · obtain ⟨k, h1, h2, h3, h4⟩ :=
        ih (executeStart (cleanState s now) now) (by simp [executeStart, cleanState, hs])
      refine ⟨k + 1, ?_, ?_, ?_, ?_⟩
      · simp [processQueueAux, hcp, h1]
      · simp [processQueueAux, hcp, h2]
      · intro j hj
        cases j with
        | zero => simpa [admitChain] using hcp
        | succ j2 =>
          rw [admitChain_shift]
          exact h3 j2 (by omega)
      · simpa [processQueueAux, hcp] using h4
    · refine ⟨0, ?_, ?_, ?_, ?_⟩
      · simp [processQueueAux, hcp]
      · simp [processQueueAux, hcp]
      · intro j hj
        exact absurd hj (by omega)
      · right
        simp only [processQueueAux, hcp, Bool.false_eq_true, if_false]
        rw [canProceed_set_queue]
        simpa using hcp

/-- C7 counterexample: with a one-request-per-minute limiter, task 0 runs at
time 0, task 1 is queued at time 1, and a brand-new task 2 scheduled at time
60001 — once the rolling window has released — is admitted immediately while
task 1 is still waiting in the queue: a later-scheduled task starts ahead of
an earlier-queued one. -/
theorem schedule_admits_new_task_ahead_of_queue :
    rlFixture2.queue = [1]
    ∧ (schedule rlFixture2 2 60001).2 = true
    ∧ (schedule rlFixture2 2 60001).1.queue = [1] := by
  decide

/-- C7 (amended): a queued task is dequeued and started only when both the
in-flight count is below `maxConcurrent` and the rolling one-minute count is
below `requestsPerMinute`; each `_processQueue` run starts a prefix of the
queue in FIFO order, each admission made in a state satisfying `_canProceed`,
leaves the rest of the queue in order, and stops only on an empty queue or a
failing `_canProceed`; `schedule` appends to the back of the queue when the
limits refuse — but admits a brand-new task immediately, ahead of any queued
tasks, when the limits permit at scheduling time. -/
theorem rateLimiter_queue_fifo_amended (s : RLState) (taskId : Nat) (now : Int) :
    (∃ k, (processQueue s now).2 = s.queue.take k
      ∧ (processQueue s now).1.queue = s.queue.drop k
      ∧ (∀ j, j < k →
          canProceed (cleanState (admitChain { s with queue := [] } now j) now) now = true)
      ∧ ((processQueue s now).1.queue = []
         ∨ canProceed (processQueue s now).1 now = false))
    ∧ (canProceed s now = false →
        (schedule s taskId now).1.queue = s.queue ++ [taskId]
        ∧ (schedule s taskId now).2 = false)
    ∧ (canProceed s now = true →
        (schedule s taskId now).2 = true
        ∧ (schedule s taskId now).1.queue = s.queue) := by
  refine ⟨processQueueAux_spec now s.queue { s with queue := [] } rfl, ?_, ?_⟩
  · intro h
    have hc : canProceed (cleanState s now) now = false := by
      rw [canProceed_cleanState, h]
    simp only [schedule, hc, Bool.false_eq_true, if_false]
    constructor <;> first | rfl | trivial
  · intro h
    have hc : canProceed (cleanState s now) now = true := by
      rw [canProceed_cleanState, h]
    simp only [schedule, hc, if_true]
    constructor <;> first | rfl | trivial

/-- Witness for the amended C7 theorem at the counterexample trace: applying
it at `rlFixture2` and time 60001 shows the admitted task bypasses the queue,
which stays `[1]`. -/
theorem rateLimiter_queue_fifo_amended_witness :
    (schedule rlFixture2 2 60001).2 = true
    ∧ (schedule rlFixture2 2 60001).1.queue = rlFixture2.queue :=
  (rateLimiter_queue_fifo_amended rlFixture2 2 60001).2.2 (by decide)

/-- C8: a failed extraction call never aborts the run.  On a window whose
call throws, the loop (i) finalizes every pending extraction from the
previous window unmerged, appending them as-is to the validation stream,
(ii) records exactly one error-marked extraction for the failed window
(carrying its 1-based index and the message, already marked `invalid`), and
(iii) continues with the remaining windows from the cleared-pending state.
The final conjuncts instantiate Scenario E: five windows, a throw on window
3, window 2 leaving one pending citation — the error record is emitted for
window 3, the pending citation is finalized unmerged, and windows 4 and 5
are still processed. -/
theorem processLoop_window_failure
    (totalWindows : Nat) (rest : List (Except String (List Extraction)))
    (i : Nat) (st : PWState) (msg : String)
    (hcancel : st.shouldCancel = false) :
    processLoop totalWindows (.error msg :: rest) i st
      = processLoop totalWindows rest (i + 1)
          { st with routed := st.routed ++ st.pending
                    pending := []
                    errors := st.errors ++ [createErrorExtraction st.extractionIndex (i + 1) msg]
                    extractionIndex := st.extractionIndex + 1 }
    ∧ (createErrorExtraction st.extractionIndex (i + 1) msg).error = true
    ∧ (createErrorExtraction st.extractionIndex (i + 1) msg).windowIndex = i + 1
    ∧ (createErrorExtraction st.extractionIndex (i + 1) msg).errorMessage = msg
    ∧ (createErrorExtraction st.extractionIndex (i + 1) msg).validationStatus = "invalid"
    ∧ ((processAllWindows scenarioEResults {}).routed
        = [processExtraction scenarioEPending 0 2
           , processExtraction scenarioEWin4 2 4
           , processExtraction scenarioEWin5 3 5]
       ∧ (processAllWindows scenarioEResults {}).errors
        = [createErrorExtraction 1 3 "Service unavailable"]) := by
  refine ⟨?_, rfl, rfl, rfl, rfl, by decide, by decide⟩
  simp only [processLoop, hcancel, Bool.false_eq_true, if_false]

/-- Witness for C8 at the Scenario E state before window 3: one pending
citation, window index 2, extraction index 1. -/
theorem processLoop_window_failure_witness :
    processLoop 5 [.error "Service unavailable"] 2
        { routed := [], errors := [], pending := [processExtraction scenarioEPending 0 2]
          extractionIndex := 1, shouldCancel := false }
      = processLoop 5 [] 3
          { routed := [processExtraction scenarioEPending 0 2]
            pending := []
            errors := [createErrorExtraction 1 3 "Service unavailable"]
            extractionIndex := 2
            shouldCancel := false } :=
  (processLoop_window_failure 5 [] 2
    { routed := [], errors := [], pending := [processExtraction scenarioEPending 0 2]
      extractionIndex := 1, shouldCancel := false } "Service unavailable" rfl).1

/-- The normalized window size is positive. -/
theorem normWindowSize_pos (windowSize : Int) : 0 < normWindowSize windowSize := by
  unfold normWindowSize
  split_ifs with h <;> omega

/-- The normalized overlap is strictly below the window size. -/
theorem normOverlap_lt (overlap : Int) (ws : Nat) (h : 0 < ws) :
    normOverlap overlap ws < ws := by
  simp only [normOverlap]
  split_ifs <;> omega

/-- Coverage invariant of the `createWindows` loop: with positive step at most
the window size and enough fuel, every character position from `start` up to
`len` lies inside some emitted window. -/
theorem createWindowsLoop_covers (ws step : Nat) (hstep : 0 < step) (hws : step ≤ ws) :
    ∀ (fuel len start idx c : Nat), len - start < fuel → start ≤ c → c < len →
      ∃ w ∈ createWindowsLoop fuel len ws step start idx, w.start ≤ c ∧ c < w.stop := by
  intro fuel
  induction fuel with
  | zero =>
    intro len start idx c hf h1 h2
    omega
  | succ fuel ih =>
    intro len start idx c hf h1 h2
    have hsl : start < len := by omega
    simp only [createWindowsLoop, hsl, if_true]
    by_cases htiny : start + step < len ∧ len - (start + step) < step
    · rw [if_pos htiny]
      by_cases hfs : start < len - ws
      · rw [if_pos hfs]
        by_cases hc : c < min (start + ws) len
        · exact ⟨⟨idx, start, min (start + ws) len, min (start + ws) len - start⟩,
            by simp, h1, hc⟩
        · refine ⟨⟨idx + 1, len - ws, len, len - (len - ws)⟩, by simp, ?_, h2⟩
          show len - ws ≤ c
          rcases min_choice (start + ws) len with hm | hm <;> rw [hm] at hc <;> omega
      · rw [if_neg hfs]
        refine ⟨⟨idx, start, min (start + ws) len, min (start + ws) len - start⟩,
          by simp, h1, ?_⟩
        show c < min (start + ws) len
        rcases min_choice (start + ws) len with hm | hm <;> rw [hm] <;> omega
    · rw [if_neg htiny]
      by_cases hc : c < min (start + ws) len
      · exact ⟨⟨idx, start, min (start + ws) len, min (start + ws) len - start⟩,
          by simp, h1, hc⟩
      · have hcc : start + ws ≤ c := by
          rcases min_choice (start + ws) len with hm | hm <;> rw [hm] at hc <;> omega
        obtain ⟨w, hw, hw1, hw2⟩ :=
          ih len (start + step) (idx + 1) c (by omega) (by omega) h2
        exact ⟨w, by simp [hw], hw1, hw2⟩

/-- Width invariant of the `createWindows` loop: every emitted window spans at
most `ws` characters. -/
theorem createWindowsLoop_width (ws step : Nat) :
    ∀ (fuel len start idx : Nat) (w : Window),
      w ∈ createWindowsLoop fuel len ws step start idx → w.stop - w.start ≤ ws := by
  intro fuel
  induction fuel with
  | zero =>
    intro len start idx w hw
    simp [createWindowsLoop] at hw
  | succ fuel ih =>
    intro len start idx w hw
    simp only [createWindowsLoop] at hw
    split_ifs at hw with hsl htiny hfs
    · simp only [List.mem_cons, List.mem_singleton, List.not_mem_nil, or_false] at hw
      rcases hw with hw | hw <;> subst hw <;> simp <;> omega
    · simp only [List.mem_singleton] at hw
      subst hw
      simp
      omega
    · simp only [List.mem_cons] at hw
      rcases hw with hw | hw
      · subst hw
        simp
        omega
      · exact ih len (start + step) (idx + 1) w hw
    · simp at hw

/-- C6: for every text with at least one non-whitespace character and all
integer `windowSize` / `overlap` inputs, after the documented normalization
the union of the half-open `[start, stop)` ranges returned by `createWindows`
covers `[0, textLength)` with no gap, and every window spans at most the
normalized window size. -/
theorem createWindows_coverage (text : List Char) (windowSize overlap : Int)
    (hcontent : text.all (fun c => c.isWhitespace) = false) :
    (∀ c, c < text.length →
      ∃ w ∈ createWindows text windowSize overlap, w.start ≤ c ∧ c < w.stop)
    ∧ (∀ w ∈ createWindows text windowSize overlap,
        w.stop - w.start ≤ normWindowSize windowSize) := by
  have hws : 0 < normWindowSize windowSize := normWindowSize_pos windowSize
  have hov : normOverlap overlap (normWindowSize windowSize) < normWindowSize windowSize :=
    normOverlap_lt overlap _ hws
  unfold createWindows
  rw [hcontent]
  simp only [Bool.false_eq_true, if_false]
  constructor
  · intro c hc
    exact createWindowsLoop_covers (normWindowSize windowSize)
      (normWindowSize windowSize - normOverlap overlap (normWindowSize windowSize))
      (by omega) (by omega) (text.length + 1) text.length 0 0 c (by omega) (by omega) hc
  · intro w hw
    exact createWindowsLoop_width (normWindowSize windowSize)
      (normWindowSize windowSize - normOverlap overlap (normWindowSize windowSize))
      (text.length + 1) text.length 0 0 w hw

/-- Witness for C6 on a one-character text with windowSize 5 and overlap 2. -/
theorem createWindows_coverage_witness :
    (∃ w ∈ createWindows ['a'] 5 2, w.start ≤ 0 ∧ 0 < w.stop)
    ∧ (∀ w ∈ createWindows ['a'] 5 2, w.stop - w.start ≤ normWindowSize 5) :=
  ⟨(createWindows_coverage ['a'] 5 2 (by decide)).1 0 (by decide),
   (createWindows_coverage ['a'] 5 2 (by decide)).2⟩

/-- The token-overlap similarity is a value in `[0, 1]`. -/
theorem stringSimilarity_bounds (str1 str2 : String) :
    0 ≤ stringSimilarity str1 str2 ∧ stringSimilarity str1 str2 ≤ 1 := by
  simp only [stringSimilarity]
  split_ifs with h1 h2
  · norm_num
  · set w1 := (jsSplitWs (jsToLower str1)).dedup with hw1
    set w2 := (jsSplitWs (jsToLower str2)).dedup with hw2
    set inter := (w1.filter (fun w => w2.contains w)).length with hinter
    have hle1 : inter ≤ w1.length := List.length_filter_le _ _
    have hle2 : inter ≤ w2.length := by
      have hnd : (w1.filter (fun w => w2.contains w)).Nodup :=
        List.Nodup.filter _ (List.nodup_dedup _)
      have hsub : (w1.filter (fun w => w2.contains w)) ⊆ w2 := by
        intro x hx
        have := List.of_mem_filter hx
        exact List.elem_iff.mp this
      exact (List.subperm_of_subset hnd hsub).length_le
    rw [Rat.mkRat_eq_div]
    constructor
    · positivity
    · rw [div_le_one (by exact_mod_cast h2)]
      have : inter ≤ w1.length + w2.length - inter := by omega
      exact_mod_cast this
  · norm_num

/-- The author comparison score is a value in `[0, 1]`. -/
theorem compareAuthors_bounds (extracted validated : List Author) :
    0 ≤ compareAuthors extracted validated ∧ compareAuthors extracted validated ≤ 1 := by
  unfold compareAuthors
  rcases extracted with _ | ⟨e0, etl⟩
  · norm_num
  · rcases validated with _ | ⟨v0, vtl⟩
    · norm_num
    · dsimp only
      split_ifs with h
      · norm_num
      · have hf := stringSimilarity_bounds (jsToLower e0.family) (jsToLower v0.family)
        rcases hel : etl.getLast? with _ | eL <;> rcases hvl : vtl.getLast? with _ | vL
        · exact hf
        · exact hf
        · exact hf
        · have hl := stringSimilarity_bounds (jsToLower eL.family) (jsToLower vL.family)
          have h7 : (mkRat 7 10 : ℚ) = 7/10 := by norm_num [Rat.mkRat_eq_div]
          have h3 : (mkRat 3 10 : ℚ) = 3/10 := by norm_num [Rat.mkRat_eq_div]
          rw [h7, h3]
          constructor
          · nlinarith [hf.1, hl.1]
          · nlinarith [hf.2, hl.2, hf.1, hl.1]

/-- The page comparison score is 0 or 1, hence in `[0, 1]`. -/
theorem comparePages_bounds (p1 p2 : String) :
    0 ≤ comparePages p1 p2 ∧ comparePages p1 p2 ≤ 1 := by
  unfold comparePages
  split_ifs <;> norm_num

/-- Every per-field score recorded by `computeMatchScore` lies in `[0, 1]`. -/
theorem computeMatchScore_fields_bounds (extNorm valNorm : NormRecord) :
    (∀ s, (computeMatchScore extNorm valNorm).fields.title = some s → 0 ≤ s ∧ s ≤ 1)
    ∧ (∀ s, (computeMatchScore extNorm valNorm).fields.authors = some s → 0 ≤ s ∧ s ≤ 1)
    ∧ (∀ s, (computeMatchScore extNorm valNorm).fields.year = some s → 0 ≤ s ∧ s ≤ 1)
    ∧ (∀ s, (computeMatchScore extNorm valNorm).fields.journal = some s → 0 ≤ s ∧ s ≤ 1)
    ∧ (∀ s, (computeMatchScore extNorm valNorm).fields.volume = some s → 0 ≤ s ∧ s ≤ 1)
    ∧ (∀ s, (computeMatchScore extNorm valNorm).fields.pages = some s → 0 ≤ s ∧ s ≤ 1) := by
  refine ⟨?_, ?_, ?_, ?_, ?_, ?_⟩
  · intro s hs
    rw [show (computeMatchScore extNorm valNorm).fields.title
        = (if extNorm.title ≠ "" ∧ valNorm.title ≠ "" then
            some (stringSimilarity (jsToLower extNorm.title) (jsToLower valNorm.title))
          else none) from rfl] at hs
    split_ifs at hs
    simp only [Option.some.injEq] at hs
    subst hs
    exact stringSimilarity_bounds _ _
  · intro s hs
    rw [show (computeMatchScore extNorm valNorm).fields.authors
        = (if extNorm.authors ≠ [] ∧ valNorm.authors ≠ [] then
            some (compareAuthors extNorm.authors valNorm.authors)
          else none) from rfl] at hs
    split_ifs at hs
    simp only [Option.some.injEq] at hs
    subst hs
    exact compareAuthors_bounds _ _
  · intro s hs
    rw [show (computeMatchScore extNorm valNorm).fields.year
        = (if yearTruthy extNorm.year = true ∧ yearTruthy valNorm.year = true then
            some (if extNorm.year = valNorm.year then (1 : ℚ) else 0)
          else none) from rfl] at hs
    split_ifs at hs <;> simp only [Option.some.injEq] at hs <;> subst hs <;> norm_num
  · intro s hs
    rw [show (computeMatchScore extNorm valNorm).fields.journal
        = (if extNorm.journal ≠ "" ∧ valNorm.journal ≠ "" then
            some (stringSimilarity (jsToLower extNorm.journal) (jsToLower valNorm.journal))
          else none) from rfl] at hs
    split_ifs at hs
    simp only [Option.some.injEq] at hs
    subst hs
    exact stringSimilarity_bounds _ _
  · intro s hs
    rw [show (computeMatchScore extNorm valNorm).fields.volume
        = (if extNorm.volume ≠ "" ∧ valNorm.volume ≠ "" then
            some (if extNorm.volume = valNorm.volume then (1 : ℚ) else 0)
          else none) from rfl] at hs
    split_ifs at hs <;> simp only [Option.some.injEq] at hs <;> subst hs <;> norm_num
  · intro s hs
    rw [show (computeMatchScore extNorm valNorm).fields.pages
        = (if extNorm.pages ≠ "" ∧ valNorm.pages ≠ "" then
            some (comparePages extNorm.pages valNorm.pages)
          else none) from rfl] at hs
    split_ifs at hs
    simp only [Option.some.injEq] at hs
    subst hs
    exact comparePages_bounds _ _

/-- `totalWeight` is a sum of nonnegative contributions. -/
theorem totalWeightOf_nonneg (fs : FieldScores) : 0 ≤ totalWeightOf fs := by
  obtain ⟨t, a, y, j, v, p⟩ := fs
  cases t <;> cases a <;> cases y <;> cases j <;> cases v <;> cases p <;>
    norm_num [totalWeightOf, weightContrib, FIELD_WEIGHTS, Rat.mkRat_eq_div]

/-- A zero `totalWeight` forces every field to be uncompared. -/
theorem totalWeightOf_zero (fs : FieldScores) (h : totalWeightOf fs = 0) :
    fs = ⟨none, none, none, none, none, none⟩ := by
  obtain ⟨t, a, y, j, v, p⟩ := fs
  cases t <;> cases a <;> cases y <;> cases j <;> cases v <;> cases p <;>
    first
      | rfl
      | (exfalso
         norm_num [totalWeightOf, weightContrib, FIELD_WEIGHTS, Rat.mkRat_eq_div] at h)

/-- The guarded average of `computeMatchScore` agrees with the unguarded
quotient (a zero total weight forces a zero weighted sum, and `x / 0 = 0`). -/
theorem overall_formula (fs : FieldScores) :
    (if totalWeightOf fs > 0 then weightedSumOf fs / totalWeightOf fs else 0)
      = weightedSumOf fs / totalWeightOf fs := by
  split_ifs with h
  · rfl
  · have h0 : totalWeightOf fs = 0 := le_antisymm (not_lt.mp h) (totalWeightOf_nonneg fs)
    have hf := totalWeightOf_zero fs h0
    subst hf
    norm_num [weightedSumOf, totalWeightOf, scoreContrib, weightContrib]

/-- The overall score of `computeMatchScore` equals the weighted sum of the
compared fields divided by the sum of their weights. -/
theorem computeMatchScore_overall_eq (extNorm valNorm : NormRecord) :
    (computeMatchScore extNorm valNorm).overall
      = weightedSumOf (computeMatchScore extNorm valNorm).fields
        / totalWeightOf (computeMatchScore extNorm valNorm).fields :=
  overall_formula (computeMatchScore extNorm valNorm).fields

/-- C4: each of the six fields participates in `computeMatchScore` exactly
when both records carry a (truthy) value for it; the overall score is the
weighted sum of the compared per-field scores divided by the sum of the
weights of exactly the compared fields (the divisor, never the numerator,
shrinks when fields are absent); `fieldsCompared` counts the compared fields;
and the verdict is `valid` at overall ≥ 0.90, `suspicious` at ≥ 0.70 and
below 0.90, `mismatch` below 0.70. -/
theorem computeMatchScore_participation_and_verdict (extNorm valNorm : NormRecord) :
    ((computeMatchScore extNorm valNorm).fields.title.isSome
       ↔ (extNorm.title ≠ "" ∧ valNorm.title ≠ ""))
    ∧ ((computeMatchScore extNorm valNorm).fields.authors.isSome
       ↔ (extNorm.authors ≠ [] ∧ valNorm.authors ≠ []))
    ∧ ((computeMatchScore extNorm valNorm).fields.year.isSome
       ↔ (yearTruthy extNorm.year = true ∧ yearTruthy valNorm.year = true))
    ∧ ((computeMatchScore extNorm valNorm).fields.journal.isSome
       ↔ (extNorm.journal ≠ "" ∧ valNorm.journal ≠ ""))
    ∧ ((computeMatchScore extNorm valNorm).fields.volume.isSome
       ↔ (extNorm.volume ≠ "" ∧ valNorm.volume ≠ ""))
    ∧ ((computeMatchScore extNorm valNorm).fields.pages.isSome
       ↔ (extNorm.pages ≠ "" ∧ valNorm.pages ≠ ""))
    ∧ (computeMatchScore extNorm valNorm).overall
        = weightedSumOf (computeMatchScore extNorm valNorm).fields
          / totalWeightOf (computeMatchScore extNorm valNorm).fields
    ∧ (computeMatchScore extNorm valNorm).fieldsCompared
        = countSome (computeMatchScore extNorm valNorm).fields
    ∧ ((computeMatchScore extNorm valNorm).overall ≥ mkRat 9 10 →
        getValidationStatus (computeMatchScore extNorm valNorm) = "valid")
    ∧ (mkRat 7 10 ≤ (computeMatchScore extNorm valNorm).overall
        ∧ (computeMatchScore extNorm valNorm).overall < mkRat 9 10 →
        getValidationStatus (computeMatchScore extNorm valNorm) = "suspicious")
    ∧ ((computeMatchScore extNorm valNorm).overall < mkRat 7 10 →
        getValidationStatus (computeMatchScore extNorm valNorm) = "mismatch") := by
  refine ⟨?_, ?_, ?_, ?_, ?_, ?_,
    computeMatchScore_overall_eq extNorm valNorm, rfl, ?_, ?_, ?_⟩
  · rw [show (computeMatchScore extNorm valNorm).fields.title
        = (if extNorm.title ≠ "" ∧ valNorm.title ≠ "" then
            some (stringSimilarity (jsToLower extNorm.title) (jsToLower valNorm.title))
          else none) from rfl]
    split_ifs with h <;> simp [h]
  · rw [show (computeMatchScore extNorm valNorm).fields.authors
        = (if extNorm.authors ≠ [] ∧ valNorm.authors ≠ [] then
            some (compareAuthors extNorm.authors valNorm.authors)
          else none) from rfl]
    split_ifs with h <;> simp [h]
  · rw [show (computeMatchScore extNorm valNorm).fields.year
        = (if yearTruthy extNorm.year = true ∧ yearTruthy valNorm.year = true then
            some (if extNorm.year = valNorm.year then (1 : ℚ) else 0)
          else none) from rfl]
    split_ifs with h <;> simp [h]
  · rw [show (computeMatchScore extNorm valNorm).fields.journal
        = (if extNorm.journal ≠ "" ∧ valNorm.journal ≠ "" then
            some (stringSimilarity (jsToLower extNorm.journal) (jsToLower valNorm.journal))
          else none) from rfl]
    split_ifs with h <;> simp [h]
  · rw [show (computeMatchScore extNorm valNorm).fields.volume
        = (if extNorm.volume ≠ "" ∧ valNorm.volume ≠ "" then
            some (if extNorm.volume = valNorm.volume then (1 : ℚ) else 0)
          else none) from rfl]
    split_ifs with h <;> simp [h]
  · rw [show (computeMatchScore extNorm valNorm).fields.pages
        = (if extNorm.pages ≠ "" ∧ valNorm.pages ≠ "" then
            some (comparePages extNorm.pages valNorm.pages)
          else none) from rfl]
    split_ifs with h <;> simp [h]
  · intro h
    simp only [getValidationStatus]
    rw [if_pos (by exact h)]
  · rintro ⟨h1, h2⟩
    simp only [getValidationStatus]
    rw [if_neg (by exact not_le.mpr h2), if_pos (by exact h1)]
  · intro h
    have h9 : (mkRat 7 10 : ℚ) < mkRat 9 10 := by norm_num [Rat.mkRat_eq_div]
    simp only [getValidationStatus]
    rw [if_neg (by exact not_le.mpr (lt_trans h h9)), if_neg (by exact not_le.mpr h)]

/-- Witness for C4 at a concrete sparse pair: only `volume` is compared, the
divisor shrinks to the volume weight, the overall score is 1, and the verdict
is `valid`. -/
theorem computeMatchScore_participation_and_verdict_witness :
    getValidationStatus (computeMatchScore { volume := "7" } { volume := "7" }) = "valid" :=
  (computeMatchScore_participation_and_verdict { volume := "7" } { volume := "7" }).2.2.2.2.2.2.2.2.1
    (by norm_num [computeMatchScore_overall_eq, weightedSumOf, totalWeightOf,
      scoreContrib, weightContrib, FIELD_WEIGHTS, Rat.mkRat_eq_div,
      show (computeMatchScore { volume := "7" } { volume := "7" }).fields
        = ⟨none, none, none, none, some 1, none⟩ from by decide])

/-- Adding weight `W` with a full score of 1 to a weighted average bounded by
1 never decreases it. -/
theorem div_step_le (S T W : ℚ) (hW : 0 < W) (h0 : 0 ≤ S) (h1 : S ≤ T) :
    S / T ≤ (S + W) / (T + W) := by
  rcases lt_or_eq_of_le (le_trans h0 h1) with hT | hT
  · rw [div_le_div_iff₀ hT (by linarith)]
    nlinarith
  · have hS : S = 0 := le_antisymm (hT ▸ h1) h0
    rw [hS, ← hT]
    simp only [zero_div, zero_add]
    positivity

/-- A per-field contribution is nonnegative and at most the field weight. -/
theorem scoreContrib_le (w : ℚ) (hw : 0 ≤ w) (o : Option ℚ)
    (hb : ∀ s, o = some s → 0 ≤ s ∧ s ≤ 1) :
    0 ≤ scoreContrib w o ∧ scoreContrib w o ≤ weightContrib w o := by
  cases o with
  | none => simp [scoreContrib, weightContrib]
  | some s =>
    obtain ⟨h0, h1⟩ := hb s rfl
    simp only [scoreContrib, weightContrib]
    exact ⟨mul_nonneg h0 hw, mul_le_of_le_one_left hw h1⟩

/-- The weighted sum produced by `computeMatchScore` is nonnegative and at
most the total weight. -/
theorem weightedSum_le_totalWeight (extNorm valNorm : NormRecord) :
    0 ≤ weightedSumOf (computeMatchScore extNorm valNorm).fields
    ∧ weightedSumOf (computeMatchScore extNorm valNorm).fields
      ≤ totalWeightOf (computeMatchScore extNorm valNorm).fields := by
  obtain ⟨hb1, hb2, hb3, hb4, hb5, hb6⟩ := computeMatchScore_fields_bounds extNorm valNorm
  have hw1 : (0 : ℚ) ≤ FIELD_WEIGHTS.title := by norm_num [FIELD_WEIGHTS]
  have hw2 : (0 : ℚ) ≤ FIELD_WEIGHTS.authors := by norm_num [FIELD_WEIGHTS]
  have hw3 : (0 : ℚ) ≤ FIELD_WEIGHTS.year := by norm_num [FIELD_WEIGHTS]
  have hw4 : (0 : ℚ) ≤ FIELD_WEIGHTS.journal := by norm_num [FIELD_WEIGHTS, Rat.mkRat_eq_div]
  have hw5 : (0 : ℚ) ≤ FIELD_WEIGHTS.volume := by norm_num [FIELD_WEIGHTS, Rat.mkRat_eq_div]
  have hw6 : (0 : ℚ) ≤ FIELD_WEIGHTS.pages := by norm_num [FIELD_WEIGHTS, Rat.mkRat_eq_div]
  have h1 := scoreContrib_le _ hw1 _ hb1
  have h2 := scoreContrib_le _ hw2 _ hb2
  have h3 := scoreContrib_le _ hw3 _ hb3
  have h4 := scoreContrib_le _ hw4 _ hb4
  have h5 := scoreContrib_le _ hw5 _ hb5
  have h6 := scoreContrib_le _ hw6 _ hb6
  unfold weightedSumOf totalWeightOf
  constructor
  · linarith [h1.1, h2.1, h3.1, h4.1, h5.1, h6.1]
  · linarith [h1.2, h2.2, h3.2, h4.2, h5.2, h6.2]

/-- C9: for a fixed pair of normalized records, extending one record with a
matching value for a field that was previously absent on one side — so the
field newly enters the comparison with a per-field score of 1, all other
field comparisons unchanged — never decreases the overall score.  One
conjunct per field. -/
theorem computeMatchScore_monotone_matching_field (e v e2 v2 : NormRecord) :
    ((computeMatchScore e v).fields.title = none
      ∧ (computeMatchScore e2 v2).fields = { (computeMatchScore e v).fields with title := some 1 }
      → (computeMatchScore e v).overall ≤ (computeMatchScore e2 v2).overall)
    ∧ ((computeMatchScore e v).fields.authors = none
      ∧ (computeMatchScore e2 v2).fields = { (computeMatchScore e v).fields with authors := some 1 }
      → (computeMatchScore e v).overall ≤ (computeMatchScore e2 v2).overall)
    ∧ ((computeMatchScore e v).fields.year = none
      ∧ (computeMatchScore e2 v2).fields = { (computeMatchScore e v).fields with year := some 1 }
      → (computeMatchScore e v).overall ≤ (computeMatchScore e2 v2).overall)
    ∧ ((computeMatchScore e v).fields.journal = none
      ∧ (computeMatchScore e2 v2).fields = { (computeMatchScore e v).fields with journal := some 1 }
      → (computeMatchScore e v).overall ≤ (computeMatchScore e2 v2).overall)
    ∧ ((computeMatchScore e v).fields.volume = none
      ∧ (computeMatchScore e2 v2).fields = { (computeMatchScore e v).fields with volume := some 1 }
      → (computeMatchScore e v).overall ≤ (computeMatchScore e2 v2).overall)
    ∧ ((computeMatchScore e v).fields.pages = none
      ∧ (computeMatchScore e2 v2).fields = { (computeMatchScore e v).fields with pages := some 1 }
      → (computeMatchScore e v).overall ≤ (computeMatchScore e2 v2).overall) := by
  have hwt := weightedSum_le_totalWeight e v
  refine ⟨?_, ?_, ?_, ?_, ?_, ?_⟩ <;> rintro ⟨hnone, hupd⟩ <;>
    rw [computeMatchScore_overall_eq e v, computeMatchScore_overall_eq e2 v2, hupd]
  · have hws : weightedSumOf { (computeMatchScore e v).fields with title := some 1 }
        = weightedSumOf (computeMatchScore e v).fields + FIELD_WEIGHTS.title := by
      simp [weightedSumOf, scoreContrib, hnone]
      try ring
    have htw : totalWeightOf { (computeMatchScore e v).fields with title := some 1 }
        = totalWeightOf (computeMatchScore e v).fields + FIELD_WEIGHTS.title := by
      simp [totalWeightOf, weightContrib, hnone]
      try ring
    rw [hws, htw]
    exact div_step_le _ _ _ (by norm_num [FIELD_WEIGHTS]) hwt.1 hwt.2
  · have hws : weightedSumOf { (computeMatchScore e v).fields with authors := some 1 }
        = weightedSumOf (computeMatchScore e v).fields + FIELD_WEIGHTS.authors := by
      simp [weightedSumOf, scoreContrib, hnone]
      try ring
    have htw : totalWeightOf { (computeMatchScore e v).fields with authors := some 1 }
        = totalWeightOf (computeMatchScore e v).fields + FIELD_WEIGHTS.authors := by
      simp [totalWeightOf, weightContrib, hnone]
      try ring
    rw [hws, htw]
    exact div_step_le _ _ _ (by norm_num [FIELD_WEIGHTS]) hwt.1 hwt.2
  · have hws : weightedSumOf { (computeMatchScore e v).fields with year := some 1 }
        = weightedSumOf (computeMatchScore e v).fields + FIELD_WEIGHTS.year := by
      simp [weightedSumOf, scoreContrib, hnone]
      try ring
    have htw : totalWeightOf { (computeMatchScore e v).fields with year := some 1 }
        = totalWeightOf (computeMatchScore e v).fields + FIELD_WEIGHTS.year := by
      simp [totalWeightOf, weightContrib, hnone]
      try ring
    rw [hws, htw]
    exact div_step_le _ _ _ (by norm_num [FIELD_WEIGHTS]) hwt.1 hwt.2
  · have hws : weightedSumOf { (computeMatchScore e v).fields with journal := some 1 }
        = weightedSumOf (computeMatchScore e v).fields + FIELD_WEIGHTS.journal := by
      simp [weightedSumOf, scoreContrib, hnone]
      try ring
    have htw : totalWeightOf { (computeMatchScore e v).fields with journal := some 1 }
        = totalWeightOf (computeMatchScore e v).fields + FIELD_WEIGHTS.journal := by
      simp [totalWeightOf, weightContrib, hnone]
      try ring
    rw [hws, htw]
    exact div_step_le _ _ _ (by norm_num [FIELD_WEIGHTS, Rat.mkRat_eq_div]) hwt.1 hwt.2
  · have hws : weightedSumOf { (computeMatchScore e v).fields with volume := some 1 }
        = weightedSumOf (computeMatchScore e v).fields + FIELD_WEIGHTS.volume := by
      simp [weightedSumOf, scoreContrib, hnone]
      try ring
    have htw : totalWeightOf { (computeMatchScore e v).fields with volume := some 1 }
        = totalWeightOf (computeMatchScore e v).fields + FIELD_WEIGHTS.volume := by
      simp [totalWeightOf, weightContrib, hnone]
      try ring
    rw [hws, htw]
    exact div_step_le _ _ _ (by norm_num [FIELD_WEIGHTS, Rat.mkRat_eq_div]) hwt.1 hwt.2
  · have hws : weightedSumOf { (computeMatchScore e v).fields with pages := some 1 }
        = weightedSumOf (computeMatchScore e v).fields + FIELD_WEIGHTS.pages := by
      simp [weightedSumOf, scoreContrib, hnone]
      try ring
    have htw : totalWeightOf { (computeMatchScore e v).fields with pages := some 1 }
        = totalWeightOf (computeMatchScore e v).fields + FIELD_WEIGHTS.pages := by
      simp [totalWeightOf, weightContrib, hnone]
      try ring
    rw [hws, htw]
    exact div_step_le _ _ _ (by norm_num [FIELD_WEIGHTS, Rat.mkRat_eq_div]) hwt.1 hwt.2

/-- Witness for C9: starting from a pair comparing only `volume`, giving the
extracted record a title identical to the validated one adds a title score of
1 and does not decrease the overall score. -/
theorem computeMatchScore_monotone_matching_field_witness :
    (computeMatchScore {} { title := "x", volume := "7" }).overall
      ≤ (computeMatchScore { title := "x" } { title := "x", volume := "7" }).overall :=
  (computeMatchScore_monotone_matching_field
      {} { title := "x", volume := "7" } { title := "x" } { title := "x", volume := "7" }).1
    ⟨by decide, by decide⟩

/-- `getValidationStatus` only ever returns the three match verdicts. -/
theorem getValidationStatus_mem (matchScore : MatchScore) :
    getValidationStatus matchScore = "valid"
    ∨ getValidationStatus matchScore = "suspicious"
    ∨ getValidationStatus matchScore = "mismatch" := by
  unfold getValidationStatus
  split_ifs <;> simp

/-- Step 3 of `validateCitation` always returns a definite verdict and keeps
the validation bag attached. -/
theorem validateCitationStep3_spec (citation : Extraction) (oracle : LookupOracle)
    (hv : citation.validation.isSome = true) :
    ((validateCitationStep3 citation oracle).validationStatus = "valid"
     ∨ (validateCitationStep3 citation oracle).validationStatus = "suspicious"
     ∨ (validateCitationStep3 citation oracle).validationStatus = "mismatch"
     ∨ (validateCitationStep3 citation oracle).validationStatus = "invalid")
    ∧ (validateCitationStep3 citation oracle).validation.isSome = true := by
  unfold validateCitationStep3
  split_ifs with h hq <;>
    first
      | exact ⟨Or.inr (Or.inr (Or.inr rfl)), hv⟩
      | · dsimp only
          split
          · split_ifs with hres
            · split
              · rename_i m heq
                refine ⟨?_, rfl⟩
                rcases getValidationStatus_mem m.2 with hg | hg | hg
                · exact Or.inl hg
                · exact Or.inr (Or.inl hg)
                · exact Or.inr (Or.inr (Or.inl hg))
              · exact ⟨Or.inr (Or.inr (Or.inr rfl)), hv⟩
            · exact ⟨Or.inr (Or.inr (Or.inr rfl)), hv⟩
          · exact ⟨Or.inr (Or.inr (Or.inr rfl)), hv⟩

/-- Step 2 of `validateCitation` always returns a definite verdict and keeps
the validation bag attached. -/
theorem validateCitationStep2_spec (citation : Extraction) (oracle : LookupOracle)
    (hv : citation.validation.isSome = true) :
    ((validateCitationStep2 citation oracle).validationStatus = "valid"
     ∨ (validateCitationStep2 citation oracle).validationStatus = "suspicious"
     ∨ (validateCitationStep2 citation oracle).validationStatus = "mismatch"
     ∨ (validateCitationStep2 citation oracle).validationStatus = "invalid")
    ∧ (validateCitationStep2 citation oracle).validation.isSome = true := by
  unfold validateCitationStep2
  split_ifs with h
  · split
    · rename_i normalized heq
      refine ⟨?_, rfl⟩
      rcases getValidationStatus_mem
          (computeMatchScore (normalizeExtracted citation) normalized) with hg | hg | hg
      · exact Or.inl hg
      · exact Or.inr (Or.inl hg)
      · exact Or.inr (Or.inr (Or.inl hg))
    · exact validateCitationStep3_spec citation oracle hv
  · exact validateCitationStep3_spec citation oracle hv

/-- C10: `validateCitation` is total at its interface — for every citation
and every outcome of the external lookups, including thrown lookups, the
returned citation carries a `validationStatus` among `valid`, `suspicious`,
`mismatch`, `invalid`, and has a validation bag attached. -/
theorem validateCitation_total_status (citation : Extraction) (oracle : LookupOracle) :
    ((validateCitation citation oracle).validationStatus = "valid"
     ∨ (validateCitation citation oracle).validationStatus = "suspicious"
     ∨ (validateCitation citation oracle).validationStatus = "mismatch"
     ∨ (validateCitation citation oracle).validationStatus = "invalid")
    ∧ (validateCitation citation oracle).validation.isSome = true := by
  unfold validateCitation
  dsimp only
  split_ifs with h
  · split
    · rename_i normalized heq
      refine ⟨?_, rfl⟩
      rcases getValidationStatus_mem
          (computeMatchScore (normalizeExtracted { citation with validation := some {} })
            normalized) with hg | hg | hg
      · exact Or.inl hg
      · exact Or.inr (Or.inl hg)
      · exact Or.inr (Or.inr (Or.inl hg))
    · split
      · rename_i normalized heq
        refine ⟨?_, rfl⟩
        rcases getValidationStatus_mem
            (computeMatchScore (normalizeExtracted { citation with validation := some {} })
              normalized) with hg | hg | hg
        · exact Or.inl hg
        · exact Or.inr (Or.inl hg)
        · exact Or.inr (Or.inr (Or.inl hg))
      · exact validateCitationStep2_spec { citation with validation := some {} } oracle rfl
  · exact validateCitationStep2_spec { citation with validation := some {} } oracle rfl
